import Mathlib

/-!
Verification of the AI Language Coach engine (error classifier, quiz
generator, mastery tracker) against its specification.

The JavaScript sources are embedded shallowly:

* JS numbers arising as `correct / attempts` ratios and as confidence
  scores are modelled as exact rationals (`ℚ`); every literal that the
  code compares against (0.5, 0.7, 0.85, 0.9, 0.95, 0.1) is exactly
  representable, and every ratio handled by the claims is exact.
* JS strings are Lean `String`s; the string operations the code uses
  (`toLowerCase`, `trim`, `split`, `includes`, `replace`, `startsWith`,
  `endsWith`) are re-implemented on the underlying character lists so
  that every definition is executable by the kernel.
* Regular-expression tests of the classifier operate at word
  granularity: a pattern such as `/à\s+le\b/` is modelled as "the word
  list of the text contains adjacent words à, le", and `/\bau\b/` as
  "the word list contains the word au".  This matches the regexes on
  whitespace-separated text, which is the granularity at which the
  spec states its claims.
* `Date` values are modelled by calendar-day numbers (`ℤ`); the code
  only ever compares dates via `toDateString`, i.e. by calendar day,
  and "now - 86400000 ms" by "day - 1".
* Randomness (`Math.random` shuffles and random index picks) is made
  explicit: shuffles become function parameters that theorems constrain
  to be permutations (a JS comparator shuffle always returns a
  permutation of its input), random indices become explicit choices.
-/

/-! ## JavaScript string primitives, modelled on character lists -/

/-- Is `pat` a contiguous sublist of the second list?  Executable model
of JS `String.prototype.includes` at character level. -/
def isInfixList (pat : List Char) : List Char → Bool
  | [] => pat.isEmpty
  | c :: cs => pat.isPrefixOf (c :: cs) || isInfixList pat cs

/-- JS `s.includes(pat)`. -/
def jsIncludes (s pat : String) : Bool := isInfixList pat.data s.data

/-- JS `s.toLowerCase()` (ASCII letters; the inputs the claims quantify
over are already lower case outside ASCII). -/
def strToLower (s : String) : String := ⟨s.data.map Char.toLower⟩

/-- Drop whitespace from both ends of a character list. -/
def trimChars (l : List Char) : List Char :=
  ((l.dropWhile Char.isWhitespace).reverse.dropWhile Char.isWhitespace).reverse

/-- JS `s.trim()`. -/
def strTrim (s : String) : String := ⟨trimChars s.data⟩

/-- Accumulator pass splitting a character list on whitespace runs. -/
def wordsAux : List Char → List Char → List String
  | [], cur => if cur.isEmpty then [] else [String.mk cur.reverse]
  | c :: cs, cur =>
    if c.isWhitespace then
      (if cur.isEmpty then wordsAux cs [] else String.mk cur.reverse :: wordsAux cs [])
    else wordsAux cs (c :: cur)

/-- The whitespace-separated words of a string: JS `s.split(/\s+/)` on
trimmed input. -/
def words (s : String) : List String := wordsAux s.data []

/-- Does the word list contain `a` immediately followed by `b`?  Models
a regex such as `/à\s+le\b/` at word granularity. -/
def hasAdjacent (a b : String) : List String → Bool
  | x :: y :: rest => (x == a && y == b) || hasAdjacent a b (y :: rest)
  | _ => false

/-- Does the word list of `s` contain the word `w`?  Models `/\bw\b/`. -/
def wordIn (w s : String) : Bool := (words s).contains w

/-- Replace the first occurrence of `pat` in a character list. -/
def replaceFirstSeg (pat repl : List Char) : List Char → List Char
  | [] => []
  | c :: cs =>
    if pat.isPrefixOf (c :: cs) then repl ++ (c :: cs).drop pat.length
    else c :: replaceFirstSeg pat repl cs

/-- JS `s.replace(pat, repl)` with a string pattern: first occurrence
only. -/
def jsReplaceFirst (s pat repl : String) : String :=
  ⟨replaceFirstSeg pat.data repl.data s.data⟩

/-- Accumulator pass of the first-occurrence de-duplication: keep the
elements not seen yet. -/
def jsDedupAux (seen : List String) : List String → List String
  | [] => []
  | x :: xs => if seen.contains x then jsDedupAux seen xs else x :: jsDedupAux (x :: seen) xs

/-- First-occurrence de-duplication, JS `[...new Set(l)]`. -/
def jsDedup (l : List String) : List String := jsDedupAux [] l

/-- JS `Math.abs` on the rationals the tracker compares. -/
def jsAbs (q : ℚ) : ℚ := if q < 0 then -q else q

/-! ## Mastery tracker (learningTracker.js)

State is the persisted `UserProgress` object; `rulesMastery` is the JS
object in entry (insertion) order, as `Object.entries` walks it. -/

/-- Per-rule record `{ attempts, correct, level, totalPoints }` (the
`lastPracticed` ISO timestamp is not inspected by any claim and is
omitted). -/
structure RuleMastery where
  attempts : Nat
  correct : Nat
  level : Nat
  totalPoints : Nat
deriving Repr, DecidableEq

/-- Freshly initialised rule record (learningTracker.js lines 91-99). -/
def freshRuleMastery : RuleMastery :=
  { attempts := 0, correct := 0, level := 1, totalPoints := 0 }

/-- Trailing accuracy `correct / attempts` of a record. -/
def accuracy (m : RuleMastery) : ℚ := (m.correct : ℚ) / (m.attempts : ℚ)

/-- The guarded accuracy `attempts > 0 ? correct / attempts : 0` used by
`getWeakRules` and `getMasteredRules`. -/
def accuracyOrZero (m : RuleMastery) : ℚ :=
  if m.attempts > 0 then accuracy m else 0

/-- The persisted progress object (learningTracker.js lines 30-38);
`lastPracticeDate` is kept as a calendar-day number. -/
structure UserProgress where
  rulesMastery : List (String × RuleMastery)
  totalQuizzes : Nat
  totalCorrect : Nat
  streak : Nat
  lastPracticeDate : Option Int
  level : Nat
  experience : Nat
deriving Repr, DecidableEq

/-- Default progress structure returned when nothing is stored. -/
def defaultProgress : UserProgress :=
  { rulesMastery := [], totalQuizzes := 0, totalCorrect := 0, streak := 0,
    lastPracticeDate := none, level := 1, experience := 0 }

/-- Association-list lookup, JS `progress.rulesMastery[ruleId]`. -/
def lookupMastery (l : List (String × RuleMastery)) (k : String) : Option RuleMastery :=
  (l.find? (fun e => e.1 == k)).map Prod.snd

/-- Get-or-initialise followed by in-place mutation of one key, as the
JS code does on the `rulesMastery` object; entry order is preserved and
a missing key is appended (JS insertion order). -/
def updateMastery (k : String) (f : RuleMastery → RuleMastery) :
    List (String × RuleMastery) → List (String × RuleMastery)
  | [] => [(k, f freshRuleMastery)]
  | (k', v) :: rest =>
    if k' = k then (k', f v) :: rest else (k', v) :: updateMastery k f rest

/-- `getExperienceForLevel` (line 78): `Math.floor(100 * level ** 1.5)`,
i.e. the integer part of `100·√(level³)`. -/
def getExperienceForLevel (level : Nat) : Nat := Nat.sqrt (10000 * level ^ 3)

/-- The per-rule part of `recordAttempt` (lines 101-115): bump the
counters, then re-evaluate the mastery level from trailing accuracy. -/
def recordAttemptRule (m : RuleMastery) (correct : Bool) (points : Nat) : RuleMastery :=
  let m1 : RuleMastery :=
    { attempts := m.attempts + 1,
      correct := if correct then m.correct + 1 else m.correct,
      level := m.level,
      totalPoints := if correct then m.totalPoints + points else m.totalPoints }
  if accuracy m1 ≥ 0.9 ∧ m1.attempts ≥ 5 then
    { m1 with level := min 4 (m1.level + 1) }
  else if accuracy m1 < 0.5 ∧ m1.attempts ≥ 3 then
    { m1 with level := max 1 (m1.level - 1) }
  else m1

/-- The streak branch of `recordAttempt` (lines 124-139): same calendar
day keeps the streak, exactly the previous day increments it, any other
recorded day resets to 1, and a first-ever record starts at 1. -/
def streakNext (streak : Nat) (lastDay : Option Int) (today : Int) : Nat :=
  match lastDay with
  | some last =>
    if last = today then streak
    else if last = today - 1 then streak + 1
    else 1
  | none => 1

/-- `recordAttempt(ruleId, correct, points)` (lines 87-159) at calendar
day `today`: updates the rule record, the global counters, the streak
and the account level, and returns the new progress. -/
def recordAttempt (p : UserProgress) (ruleId : String) (correct : Bool)
    (points : Nat) (today : Int) : UserProgress :=
  let p1 := { p with rulesMastery := updateMastery ruleId (fun m => recordAttemptRule m correct points) p.rulesMastery }
  let p2 := { p1 with
    totalQuizzes := p1.totalQuizzes + 1,
    totalCorrect := if correct then p1.totalCorrect + 1 else p1.totalCorrect,
    experience := if correct then p1.experience + points else p1.experience }
  let p3 := { p2 with
    streak := streakNext p2.streak p2.lastPracticeDate today,
    lastPracticeDate := some today }
  if p3.experience ≥ getExperienceForLevel (p3.level + 1) then
    { p3 with level := p3.level + 1 }
  else p3

/-- `getRuleMastery` (lines 166-175): level of a rule, defaulting to 1
for unknown rules (and through JS `|| 1` for a falsy stored level). -/
def getRuleMastery (p : UserProgress) (ruleId : String) : Nat :=
  match lookupMastery p.rulesMastery ruleId with
  | none => 1
  | some m => if m.level = 0 then 1 else m.level

/-- The comparator of `getWeakRules` (lines 192-200): ascending by
accuracy, but inside a 0.1 accuracy band descending by attempts. -/
def weakCmp (a b : String × RuleMastery) : ℚ :=
  let accA := accuracy a.2
  let accB := accuracy b.2
  if jsAbs (accA - accB) > 0.1 then accA - accB
  else (b.2.attempts : ℚ) - (a.2.attempts : ℚ)

/-- Stable insertion of `x` into a run already ordered by `cmp`: `x`
goes before the first element it does not have to follow. -/
def insertCmp (cmp : α → α → ℚ) (x : α) : List α → List α
  | [] => [x]
  | y :: ys => if cmp x y ≤ 0 then x :: y :: ys else y :: insertCmp cmp x ys

/-- Stable comparator sort, the behaviour ECMAScript guarantees for
`Array.prototype.sort` under a consistent comparator. -/
def sortByCmp (cmp : α → α → ℚ) : List α → List α
  | [] => []
  | x :: xs => insertCmp cmp x (sortByCmp cmp xs)

/-- `getWeakRules(limit)` (lines 182-205): keep rules with accuracy
below 0.7 and at least 2 attempts, sort with `weakCmp`, truncate, and
return the rule ids. -/
def getWeakRules (p : UserProgress) (limit : Nat) : List String :=
  ((sortByCmp weakCmp
      (p.rulesMastery.filter
        (fun e => accuracyOrZero e.2 < 0.7 ∧ e.2.attempts ≥ 2))).take limit).map Prod.fst

/-- `getMasteredRules()` (lines 211-221): rules with accuracy at least
0.85 over at least 5 attempts. -/
def getMasteredRules (p : UserProgress) : List String :=
  (p.rulesMastery.filter
    (fun e => accuracyOrZero e.2 ≥ 0.85 ∧ e.2.attempts ≥ 5)).map Prod.fst

/-- The status chain of `getRulePerformance` (lines 245-253). -/
def ruleStatus (m : RuleMastery) : String :=
  if accuracy m ≥ 0.9 ∧ m.attempts ≥ 5 then "mastered"
  else if accuracy m ≥ 0.7 then "progressing"
  else if accuracy m < 0.5 then "struggling"
  else "learning"

/-- The `status` field of `getRulePerformance(ruleId)` (lines 228-264):
`new` for an absent record or zero attempts, otherwise the accuracy
chain. -/
def getRulePerformanceStatus (p : UserProgress) (ruleId : String) : String :=
  match lookupMastery p.rulesMastery ruleId with
  | none => "new"
  | some m => if m.attempts = 0 then "new" else ruleStatus m

/-- One correct 10-point `recordAttempt("contraction-au", true, 10)`
call at day 0, as in the spec scenario. -/
def caStep (p : UserProgress) : UserProgress :=
  recordAttempt p "contraction-au" true 10 0

/-- The counter part of `recordAttemptRule` before the level update. -/
def bump (m : RuleMastery) (c : Bool) (pts : Nat) : RuleMastery :=
  { attempts := m.attempts + 1,
    correct := if c then m.correct + 1 else m.correct,
    level := m.level,
    totalPoints := if c then m.totalPoints + pts else m.totalPoints }

/-- One incorrect `recordAttempt("contraction-au", false, 10)` call at
day 0. -/
def caMiss (p : UserProgress) : UserProgress :=
  recordAttempt p "contraction-au" false 10 0

/-- A state reached by six correct answers and one miss on one rule:
7 attempts at accuracy 6/7 ≈ 0.857. -/
def progC9 : UserProgress :=
  caMiss (caStep (caStep (caStep (caStep (caStep (caStep defaultProgress))))))

/-! ## Rule catalog (frenchGrammarRules.js)

Each entry keeps the fields the engine reads: `id`, `category`, the
`rule` statement, the example sentences (`incorrect` / `correct`, both
optional, as some catalog examples carry only one or neither),
`relatedRules` and the `practice` items.  Prose-only fields
(explanations, translations, hints, difficulty and similar) are not
read by any claim and are omitted. -/

/-- One catalog example sentence pair. -/
structure RuleExample where
  incorrect : Option String := none
  correct : Option String := none
deriving Repr, DecidableEq

/-- One catalog practice exercise. -/
structure PracticeItem where
  prompt : String
  answer : String
deriving Repr, DecidableEq

/-- One catalog grammar rule. -/
structure GrammarRule where
  id : String
  category : String
  rule : String
  examples : List RuleExample
  relatedRules : List String
  practice : List PracticeItem
deriving Repr, DecidableEq

/-- Catalog entry `contraction-au`. -/
def ruleContractionAu : GrammarRule :=
  { id := "contraction-au", category := "contractions",
    rule := "à + le = au (mandatory contraction)",
    examples :=
      [{ incorrect := some "Je vais à le parc", correct := some "Je vais au parc" },
       { incorrect := some "Il est à le cinéma", correct := some "Il est au cinéma" },
       { incorrect := some "à le marché", correct := some "au marché" }],
    relatedRules := ["contraction-du", "prepositions-place"],
    practice :=
      [{ prompt := "Transform: à le restaurant → __________", answer := "au restaurant" },
       { prompt := "Transform: à le bureau → __________", answer := "au bureau" },
       { prompt := "Fix the error: Je vais à le stade", answer := "Je vais au stade" }] }

/-- Catalog entry `contraction-du`. -/
def ruleContractionDu : GrammarRule :=
  { id := "contraction-du", category := "contractions",
    rule := "de + le = du (mandatory contraction)",
    examples :=
      [{ incorrect := some "Je viens de le parc", correct := some "Je viens du parc" },
       { incorrect := some "Le chat de le voisin", correct := some "Le chat du voisin" },
       { incorrect := some "de le magasin", correct := some "du magasin" }],
    relatedRules := ["contraction-au", "partitive-article"],
    practice :=
      [{ prompt := "Transform: de le musée → __________", answer := "du musée" },
       { prompt := "Fix: Le livre de le professeur", answer := "Le livre du professeur" }] }

/-- Catalog entry `contraction-aux`. -/
def ruleContractionAux : GrammarRule :=
  { id := "contraction-aux", category := "contractions",
    rule := "à + les = aux (mandatory contraction)",
    examples :=
      [{ incorrect := some "Je parle à les enfants", correct := some "Je parle aux enfants" },
       { incorrect := some "à les États-Unis", correct := some "aux États-Unis" }],
    relatedRules := ["contraction-au", "plural-articles"],
    practice :=
      [{ prompt := "Transform: à les étudiants → __________", answer := "aux étudiants" }] }

/-- Catalog entry `gender-article-masculine`. -/
def ruleGenderMasculine : GrammarRule :=
  { id := "gender-article-masculine", category := "gender-agreement",
    rule := "Masculine nouns use \"le\" (or \"un\" for indefinite)",
    examples :=
      [{ correct := some "le chat" },
       { correct := some "le livre" },
       { correct := some "un garçon" }],
    relatedRules := ["gender-article-feminine", "adjective-agreement"],
    practice :=
      [{ prompt := "Is \"table\" masculine or feminine?", answer := "feminine (la table)" },
       { prompt := "Choose the correct article: ___ château", answer := "le" }] }

/-- Catalog entry `gender-article-feminine`. -/
def ruleGenderFeminine : GrammarRule :=
  { id := "gender-article-feminine", category := "gender-agreement",
    rule := "Feminine nouns use \"la\" (or \"une\" for indefinite)",
    examples :=
      [{ correct := some "la maison" },
       { correct := some "la table" },
       { correct := some "une fille" }],
    relatedRules := ["gender-article-masculine", "adjective-agreement"],
    practice := [] }

/-- Catalog entry `passe-compose-etre`. -/
def rulePasseComposeEtre : GrammarRule :=
  { id := "passe-compose-etre", category := "verb-conjugation",
    rule := "Passé composé with être: past participle agrees with subject",
    examples :=
      [{ incorrect := some "Elle est allé", correct := some "Elle est allée" },
       { incorrect := some "Ils sont arrivé", correct := some "Ils sont arrivés" },
       { correct := some "Je suis venu(e)" }],
    relatedRules := ["passe-compose-avoir", "adjective-agreement"],
    practice :=
      [{ prompt := "Conjugate: Elle (aller) au cinéma → __________", answer := "Elle est allée au cinéma" },
       { prompt := "Fix: Nous sommes arrivé hier", answer := "Nous sommes arrivés hier" }] }

/-- Catalog entry `passe-compose-avoir`. -/
def rulePasseComposeAvoir : GrammarRule :=
  { id := "passe-compose-avoir", category := "verb-conjugation",
    rule := "Passé composé with avoir: no agreement (except with preceding direct object)",
    examples :=
      [{ correct := some "Il a mangé" },
       { correct := some "Elle a mangé" },
       { correct := some "Ils ont parlé" }],
    relatedRules := ["passe-compose-etre", "direct-object-pronouns"],
    practice := [] }

/-- Catalog entry `present-tense-regular-er`; its two examples carry
conjugation tables, not sentence pairs, so both optional fields are
absent. -/
def rulePresentTenseEr : GrammarRule :=
  { id := "present-tense-regular-er", category := "verb-conjugation",
    rule := "Regular -er verbs: endings are -e, -es, -e, -ons, -ez, -ent",
    examples := [{}, {}],
    relatedRules := ["present-tense-ir", "present-tense-re"],
    practice :=
      [{ prompt := "Conjugate \"aimer\" with \"je\"", answer := "j\x27aime" },
       { prompt := "Conjugate \"parler\" with \"nous\"", answer := "nous parlons" }] }

/-- Catalog entry `adjective-agreement`. -/
def ruleAdjectiveAgreement : GrammarRule :=
  { id := "adjective-agreement", category := "adjective-agreement",
    rule := "Adjectives agree in gender and number with the noun they modify",
    examples :=
      [{ incorrect := some "une voiture beau", correct := some "une voiture belle" },
       { incorrect := some "des chats grand", correct := some "des chats grands" },
       { correct := some "un homme intelligent" },
       { correct := some "une femme intelligente" }],
    relatedRules := ["gender-article-masculine", "gender-article-feminine", "adjective-position"],
    practice :=
      [{ prompt := "Agree: une robe (blanc) → __________", answer := "une robe blanche" },
       { prompt := "Agree: des maisons (grand) → __________", answer := "des maisons grandes" }] }

/-- Catalog entry `prepositions-place`. -/
def rulePrepositionsPlace : GrammarRule :=
  { id := "prepositions-place", category := "prepositions",
    rule := "Using correct prepositions with places: à (to/at), de (from), en/au (in/to countries)",
    examples :=
      [{ correct := some "Je vais à Paris" },
       { correct := some "Je suis en France" },
       { correct := some "Je vais au Canada" },
       { correct := some "Je viens de Londres" }],
    relatedRules := ["contraction-au", "contraction-du"],
    practice := [] }

/-- Catalog entry `direct-object-pronouns`. -/
def ruleDirectObjectPronouns : GrammarRule :=
  { id := "direct-object-pronouns", category := "pronouns",
    rule := "Direct object pronouns: le, la, les, me, te, nous, vous",
    examples :=
      [{ incorrect := some "Je vois le chat", correct := some "Je le vois" },
       { incorrect := some "Il mange la pomme", correct := some "Il la mange" },
       { incorrect := some "Nous aimons les films", correct := some "Nous les aimons" }],
    relatedRules := ["indirect-object-pronouns", "pronoun-order"],
    practice := [] }

/-- Catalog entry `negation-ne-pas`. -/
def ruleNegationNePas : GrammarRule :=
  { id := "negation-ne-pas", category := "negation",
    rule := "Negation: ne ... pas surrounds the verb",
    examples :=
      [{ incorrect := some "Je pas parle français", correct := some "Je ne parle pas français" },
       { incorrect := some "Il ne pas mange", correct := some "Il ne mange pas" },
       { correct := some "Je n\x27aime pas" }],
    relatedRules := ["negation-complex"],
    practice :=
      [{ prompt := "Make negative: Il parle anglais", answer := "Il ne parle pas anglais" },
       { prompt := "Make negative: Je vais au cinéma", answer := "Je ne vais pas au cinéma" }] }

/-- Catalog entry `partitive-article`. -/
def rulePartitiveArticle : GrammarRule :=
  { id := "partitive-article", category := "articles",
    rule := "Partitive articles: du (m), de la (f), de l\x27 (vowel), des (plural)",
    examples :=
      [{ correct := some "Je mange du pain" },
       { correct := some "Elle boit de la limonade" },
       { correct := some "Il y a de l\x27eau" }],
    relatedRules := ["contraction-du", "indefinite-articles"],
    practice := [] }

/-- The full catalog, in declaration order. -/
def frenchGrammarRules : List GrammarRule :=
  [ruleContractionAu, ruleContractionDu, ruleContractionAux,
   ruleGenderMasculine, ruleGenderFeminine,
   rulePasseComposeEtre, rulePasseComposeAvoir, rulePresentTenseEr,
   ruleAdjectiveAgreement, rulePrepositionsPlace,
   ruleDirectObjectPronouns, ruleNegationNePas, rulePartitiveArticle]

/-- Object indexing `frenchGrammarRules[ruleId]`: the entry with the
given id, if any. -/
def lookupRule (ruleId : String) : Option GrammarRule :=
  frenchGrammarRules.find? (fun r => r.id == ruleId)

/-! ## Error classifier (errorDetector.js)

`detectErrorType` lower-cases and trims both texts and runs the fixed
battery of detectors, keeping the strictly highest-confidence result.
Regex word patterns are modelled at word granularity (see the header);
`desc.includes(...)` keyword tests are substring tests, as in the
source.  The `details` payload carries no information any claim reads
and is omitted from the result record. -/

/-- A detector result `{ type, confidence, rule }`; `etype = none`
models the JS `type: null` of a non-match. -/
structure DetectResult where
  etype : Option String
  confidence : ℚ
  rule : Option GrammarRule
deriving Repr, DecidableEq

/-- The non-match result `{ type: null, confidence: 0, rule: null }`. -/
def noDetect : DetectResult := { etype := none, confidence := 0, rule := none }

/-- The initial best match `{ type: 'unknown', confidence: 0, rule: null }`. -/
def unknownDetect : DetectResult := { etype := some "unknown", confidence := 0, rule := none }

/-- One contraction surface pattern: adjacent original words, the
corrected word, the rule id and the confidence. -/
structure ContractionPattern where
  origA : String
  origB : String
  corr : String
  ctype : String
  confidence : ℚ
deriving Repr, DecidableEq

/-- The four contraction patterns, in source order. -/
def contractionPatterns : List ContractionPattern :=
  [{ origA := "à", origB := "le", corr := "au", ctype := "contraction-au", confidence := 0.95 },
   { origA := "de", origB := "le", corr := "du", ctype := "contraction-du", confidence := 0.95 },
   { origA := "à", origB := "les", corr := "aux", ctype := "contraction-aux", confidence := 0.95 },
   { origA := "de", origB := "les", corr := "des", ctype := "contraction-des", confidence := 0.95 }]

/-- `detectContractionErrors`: first pattern whose original words occur
adjacently in the original and whose contracted word occurs in the
correction wins; otherwise contraction keywords in the description plus
a literal "à le" in the original give a weaker match. -/
def detectContractionErrors (original corrected desc : String) : DetectResult :=
  match contractionPatterns.find?
      (fun p => hasAdjacent p.origA p.origB (words original) && wordIn p.corr corrected) with
  | some p => { etype := some p.ctype, confidence := p.confidence, rule := lookupRule p.ctype }
  | none =>
    if jsIncludes desc "contract" || jsIncludes desc "au" || jsIncludes desc "du" then
      if jsIncludes original "à le" then
        { etype := some "contraction-au", confidence := 0.7, rule := lookupRule "contraction-au" }
      else noDetect
    else noDetect

/-- Masculine determiners checked by the gender detector. -/
def masculineArticles : List String := ["le", "un", "ce", "mon", "ton", "son"]

/-- Feminine determiners checked by the gender detector. -/
def feminineArticles : List String := ["la", "une", "cette", "ma", "ta", "sa"]

/-- The positional scan of `detectGenderArticleErrors`: walk both word
lists in parallel (up to the shorter) looking for a masculine/feminine
determiner swap. -/
def genderScan : List String → List String → Option DetectResult
  | ow :: os, cw :: cs =>
    if masculineArticles.contains ow && feminineArticles.contains cw then
      some { etype := some "gender-article-feminine", confidence := 0.85,
             rule := lookupRule "gender-article-feminine" }
    else if feminineArticles.contains ow && masculineArticles.contains cw then
      some { etype := some "gender-article-masculine", confidence := 0.85,
             rule := lookupRule "gender-article-masculine" }
    else genderScan os cs
  | _, _ => none

/-- `detectGenderArticleErrors`: positional determiner-swap scan, then
description keywords. -/
def detectGenderArticleErrors (original corrected desc : String) : DetectResult :=
  match genderScan (words original) (words corrected) with
  | some r => r
  | none =>
    if jsIncludes desc "gender" || jsIncludes desc "article" ||
        jsIncludes desc "masculine" || jsIncludes desc "feminine" then
      { etype := some "gender-article-masculine", confidence := 0.5,
        rule := lookupRule "gender-article-masculine" }
    else noDetect

/-- The subject + être forms of the passé-composé pattern
`/\b(je suis|tu es|il est|elle est|on est|nous sommes|vous êtes|ils sont|elles sont)\s+(\w+)/`. -/
def pcSubjects : List (String × String) :=
  [("je", "suis"), ("tu", "es"), ("il", "est"), ("elle", "est"), ("on", "est"),
   ("nous", "sommes"), ("vous", "êtes"), ("ils", "sont"), ("elles", "sont")]

/-- First word following a subject + être pair, the captured participle
of the passé-composé regex at word granularity. -/
def findPcParticiple : List String → Option String
  | a :: b :: w :: rest =>
    if pcSubjects.contains (a, b) then some w else findPcParticiple (b :: w :: rest)
  | _ => none

/-- The être-verb participle stems of `detectVerbConjugationErrors`. -/
def etreVerbs : List String :=
  ["allé", "venu", "arrivé", "parti", "entré", "sorti", "monté", "descendu",
   "né", "mort", "resté", "tombé", "retourné", "devenu"]

/-- The description fallback of `detectVerbConjugationErrors`. -/
def verbDescFallback (desc : String) : DetectResult :=
  if jsIncludes desc "conjugation" || jsIncludes desc "verb" || jsIncludes desc "tense" then
    if jsIncludes desc "passé" || jsIncludes desc "past" then
      { etype := some "passe-compose-etre", confidence := 0.6,
        rule := lookupRule "passe-compose-etre" }
    else
      { etype := some "present-tense-regular-er", confidence := 0.5,
        rule := lookupRule "present-tense-regular-er" }
  else noDetect

/-- `detectVerbConjugationErrors`: a changed participle after a
subject + être pair whose corrected form starts with an être-verb stem
is a passé-composé agreement error; otherwise description keywords. -/
def detectVerbConjugationErrors (original corrected desc : String) : DetectResult :=
  match findPcParticiple (words original), findPcParticiple (words corrected) with
  | some op, some cp =>
    if op ≠ cp then
      match etreVerbs.find? (fun v => v.data.isPrefixOf cp.data) with
      | some _ =>
        { etype := some "passe-compose-etre", confidence := 0.9,
          rule := lookupRule "passe-compose-etre" }
      | none => verbDescFallback desc
    else verbDescFallback desc
  | _, _ => verbDescFallback desc

/-- The irregular adjective pairs of `detectAdjectiveAgreementErrors`. -/
def irregularAdjectivePairs : List (String × String) :=
  [("beau", "belle"), ("beau", "beaux"), ("belle", "belles"),
   ("nouveau", "nouvelle"), ("nouveau", "nouveaux"), ("nouvelle", "nouvelles"),
   ("vieux", "vieille"), ("vieux", "vieilles")]

/-- The positional scan of `detectAdjectiveAgreementErrors`: a word that
changed by a regular agreement ending scores 0.85, an irregular pair in
either direction scores 0.9. -/
def adjectiveScan : List String → List String → Option DetectResult
  | ow :: os, cw :: cs =>
    if ow ≠ cw then
      if cw = ow ++ "e" || cw = ow ++ "es" then
        some { etype := some "adjective-agreement", confidence := 0.85,
               rule := lookupRule "adjective-agreement" }
      else if cw = ow ++ "s" then
        some { etype := some "adjective-agreement", confidence := 0.85,
               rule := lookupRule "adjective-agreement" }
      else
        match irregularAdjectivePairs.find?
            (fun p => (ow == p.1 && cw == p.2) || (ow == p.2 && cw == p.1)) with
        | some _ =>
          some { etype := some "adjective-agreement", confidence := 0.9,
                 rule := lookupRule "adjective-agreement" }
        | none => adjectiveScan os cs
    else adjectiveScan os cs
  | _, _ => none

/-- `detectAdjectiveAgreementErrors`: positional agreement scan, then
description keywords. -/
def detectAdjectiveAgreementErrors (original corrected desc : String) : DetectResult :=
  match adjectiveScan (words original) (words corrected) with
  | some r => r
  | none =>
    if jsIncludes desc "adjective" || jsIncludes desc "agreement" || jsIncludes desc "accord" then
      { etype := some "adjective-agreement", confidence := 0.6,
        rule := lookupRule "adjective-agreement" }
    else noDetect

/-- The preposition changes of `detectPrepositionErrors`. -/
def prepositionChanges : List (String × String) :=
  [("à", "en"), ("en", "au"), ("de", "à")]

/-- `detectPrepositionErrors`: a listed preposition word in the original
with its counterpart word in the correction, then description
keywords. -/
def detectPrepositionErrors (original corrected desc : String) : DetectResult :=
  match prepositionChanges.find? (fun p => wordIn p.1 original && wordIn p.2 corrected) with
  | some _ =>
    { etype := some "prepositions-place", confidence := 0.7,
      rule := lookupRule "prepositions-place" }
  | none =>
    if jsIncludes desc "preposition" || jsIncludes desc "à" || jsIncludes desc "de" then
      { etype := some "prepositions-place", confidence := 0.5,
        rule := lookupRule "prepositions-place" }
    else noDetect

/-- `detectNegationErrors`: "ne ... pas" present in the correction while
the original has "pas" without "ne", then description keywords. -/
def detectNegationErrors (original corrected desc : String) : DetectResult :=
  let hasNe := wordIn "ne" corrected || jsIncludes corrected "n\x27"
  let hasPas := wordIn "pas" corrected
  let originalMissingNe :=
    !(wordIn "ne" original || jsIncludes original "n\x27") && wordIn "pas" original
  if hasNe && hasPas && originalMissingNe then
    { etype := some "negation-ne-pas", confidence := 0.9,
      rule := lookupRule "negation-ne-pas" }
  else if jsIncludes desc "negation" || jsIncludes desc "negative" || jsIncludes desc "ne...pas" then
    { etype := some "negation-ne-pas", confidence := 0.7,
      rule := lookupRule "negation-ne-pas" }
  else noDetect

/-- The partitive articles of `detectPartitiveArticleErrors`. -/
def partitives : List String := ["du", "de la", "de l\x27", "des"]

/-- `detectPartitiveArticleErrors`: some partitive substring in the
correction while none occurs in the original, then description
keywords. -/
def detectPartitiveArticleErrors (original corrected desc : String) : DetectResult :=
  let hasPartitive := partitives.any (fun p => jsIncludes corrected p)
  let missingPartitive := !(partitives.any (fun p => jsIncludes original p))
  if hasPartitive && missingPartitive then
    { etype := some "partitive-article", confidence := 0.75,
      rule := lookupRule "partitive-article" }
  else if jsIncludes desc "partitive" || jsIncludes desc "article partitif" then
    { etype := some "partitive-article", confidence := 0.7,
      rule := lookupRule "partitive-article" }
  else noDetect

/-- `detectPronounErrors`: description keywords only. -/
def detectPronounErrors (_original _corrected desc : String) : DetectResult :=
  if jsIncludes desc "pronoun" || jsIncludes desc "pronom" then
    { etype := some "direct-object-pronouns", confidence := 0.6,
      rule := lookupRule "direct-object-pronouns" }
  else noDetect

/-- The detector battery, in declaration order. -/
def detectors : List (String → String → String → DetectResult) :=
  [detectContractionErrors, detectGenderArticleErrors, detectVerbConjugationErrors,
   detectAdjectiveAgreementErrors, detectPrepositionErrors, detectNegationErrors,
   detectPartitiveArticleErrors, detectPronounErrors]

/-- Keep the strictly better of two results (the running best wins
ties, as the source compares with `>`). -/
def better (best r : DetectResult) : DetectResult :=
  if r.confidence > best.confidence then r else best

/-- `detectErrorType(original, corrected, errorDescription)`: empty
original or corrected text short-circuits to the unknown result before
any detector runs; otherwise both texts are lower-cased and trimmed and
the battery is folded with `better`. -/
def detectErrorType (original corrected : String) (desc : String := "") : DetectResult :=
  if original = "" || corrected = "" then unknownDetect
  else
    let o := strTrim (strToLower original)
    let c := strTrim (strToLower corrected)
    let d := strToLower desc
    detectors.foldl (fun best f => better best (f o c d)) unknownDetect

/-! ## Quiz generator (quizGenerator.js)

Randomness is made explicit: every `.sort(() => Math.random() - 0.5)`
shuffle becomes a function parameter (theorems assume it permutes its
input — any comparator sort does), and every random array index a
natural-number choice reduced modulo the array length.  A `Question`
keeps the fields the claims constrain — type, options, correctAnswer,
points; the prose fields (id, question text, explanation, hint,
translation, difficulty tag) are not read by any claim and are
omitted. -/

/-- A quiz item; `options = none` models a question without an options
array (free-text fill-in). -/
structure Question where
  qtype : String
  options : Option (List String)
  correctAnswer : String
  points : Nat
deriving Repr, DecidableEq

/-- An analyzed error as `analyzeErrors` hands it to the generator; the
JS field `example` is called `exampleText` (`example` is reserved in
Lean).  The `detectedType`/`confidence` fields of the JS object are
never read by the generator and are omitted. -/
structure ErrorInfo where
  exampleText : String
  suggestion : String
  grammarRule : Option GrammarRule
deriving Repr, DecidableEq

/-- JS truthiness of an optional string field. -/
def optTruthy : Option String → Bool
  | some s => s ≠ ""
  | none => false

/-- Replace the first word equal to `w` in a word list. -/
def replaceFirstInWords (w repl : String) : List String → List String
  | [] => []
  | t :: ts => if t = w then repl :: ts else t :: replaceFirstInWords w repl ts

/-- JS `s.split(' ')`: split on single spaces, keeping empty pieces. -/
def splitSpaceAux : List Char → List Char → List String
  | cur, [] => [String.mk cur.reverse]
  | cur, c :: cs =>
    if c = ' ' then String.mk cur.reverse :: splitSpaceAux [] cs
    else splitSpaceAux (c :: cur) cs

/-- JS `s.split(' ')`. -/
def splitSpace (s : String) : List String := splitSpaceAux [] s.data

/-- Join words with single spaces (inverse of `splitSpace`). -/
def joinSpace : List String → String
  | [] => ""
  | [x] => x
  | x :: xs => x ++ " " ++ joinSpace xs

/-- JS `s.replace(/\bw\b/, repl)` at word granularity: replace the
first space-separated word equal to `w`. -/
def replaceFirstWord (s w repl : String) : String :=
  joinSpace (replaceFirstInWords w repl (splitSpace s))

/-- JS `s.replace(/é(e?)s?$/, repl)`: rewrite a trailing é/ée/és/ées
(the regex is greedy, so the longest suffix matches). -/
def replaceVerbSuffix (s repl : String) : String :=
  if "ées".data.isSuffixOf s.data then String.mk (s.data.take (s.data.length - 3)) ++ repl
  else if "és".data.isSuffixOf s.data then String.mk (s.data.take (s.data.length - 2)) ++ repl
  else if "ée".data.isSuffixOf s.data then String.mk (s.data.take (s.data.length - 2)) ++ repl
  else if "é".data.isSuffixOf s.data then String.mk (s.data.take (s.data.length - 1)) ++ repl
  else s

/-- The category-keyed pools of `generateRuleDistractors`, with the
generic pool as fallback. -/
def distractorTemplatesFor (category : String) : List String :=
  if category = "contractions" then
    ["Articles never contract with prepositions in French",
     "Contractions are optional depending on formality",
     "Only plural articles contract with prepositions"]
  else if category = "gender-agreement" then
    ["All nouns ending in -e are feminine",
     "Articles must match the first letter of the noun",
     "Gender agreement is only required in written French"]
  else if category = "verb-conjugation" then
    ["All verbs use avoir in passé composé",
     "Past participles never change form",
     "Subject agreement is optional in compound tenses"]
  else if category = "adjective-agreement" then
    ["Adjectives in French never change form",
     "Agreement is only needed for irregular adjectives",
     "Feminine adjectives always end in -e"]
  else if category = "prepositions" then
    ["All countries use the preposition \"à\"",
     "Prepositions in French are interchangeable",
     "Use \"en\" for all geographical locations"]
  else if category = "negation" then
    ["Only \"pas\" is needed for negation",
     "Negation comes after the verb in French",
     "\"Ne\" is optional in spoken French"]
  else
    ["This rule has many exceptions",
     "Usage varies by region",
     "Both forms are equally correct"]

/-- `generateRuleDistractors`: three template distractors, optionally a
related rule statement, truncated back to three. -/
def generateRuleDistractors (rule : GrammarRule) : List String :=
  let templates := distractorTemplatesFor rule.category
  let distractors := templates.take 3
  let distractors :=
    match rule.relatedRules with
    | [] => distractors
    | rid :: _ =>
      match lookupRule rid with
      | some related =>
        if related.rule ≠ rule.rule then distractors ++ [related.rule] else distractors
      | none => distractors
  distractors.take 3

/-- `generateRuleExplanationQuestion`: the rule statement among shuffled
distractors (the `error` argument only feeds the prose question text,
which is not modelled). -/
def generateRuleExplanationQuestion (shuffle : List String → List String)
    (rule : GrammarRule) : Question :=
  { qtype := "rule_explanation",
    options := some (shuffle (rule.rule :: generateRuleDistractors rule)),
    correctAnswer := rule.rule,
    points := 10 }

/-- `generateApplicationOptions`: category-aware wrong answers around
the correct one, de-duplicated, at most three distractors, shuffled. -/
def generateApplicationOptions (shuffle : List String → List String)
    (correctAnswer : String) (rule : GrammarRule) : List String :=
  let options := [correctAnswer]
  let options :=
    if rule.category = "contractions" then
      if jsIncludes correctAnswer "au " then
        options ++ [jsReplaceFirst correctAnswer "au " "à le ",
                    jsReplaceFirst correctAnswer "au " "à la ",
                    jsReplaceFirst correctAnswer "au " "aux "]
      else if jsIncludes correctAnswer "du " then
        options ++ [jsReplaceFirst correctAnswer "du " "de le ",
                    jsReplaceFirst correctAnswer "du " "de la ",
                    jsReplaceFirst correctAnswer "du " "des "]
      else options
    else if rule.category = "gender-agreement" then
      options ++ [replaceFirstWord correctAnswer "le" "la",
                  replaceFirstWord correctAnswer "la" "le",
                  replaceFirstWord correctAnswer "un" "une",
                  replaceFirstWord correctAnswer "une" "un"]
    else if rule.category = "verb-conjugation" then
      options ++ [replaceVerbSuffix correctAnswer "er", replaceVerbSuffix correctAnswer "é"]
    else
      options ++ [correctAnswer ++ " (incorrect form)", "Both forms are correct"]
  let uniqueOptions := (jsDedup options).filter (fun o => o ≠ correctAnswer)
  shuffle (correctAnswer :: uniqueOptions.take 3)

/-- The practice item used by `generateApplicationQuestion`: prefer a
random catalog practice item, else synthesize one from a random example
pair (JS interpolation renders a missing field as "undefined"); an
empty practice list with no examples yields nothing. -/
def pickApplicationPractice (pickPractice pickExample : Nat)
    (rule : GrammarRule) : Option PracticeItem :=
  match rule.practice.get? (pickPractice % rule.practice.length) with
  | some pr => some pr
  | none =>
    match rule.examples.get? (pickExample % rule.examples.length) with
    | some ex =>
      some { prompt := "Fix this sentence: " ++ ex.incorrect.getD "undefined",
             answer := ex.correct.getD "undefined" }
    | none => none

/-- `generateApplicationQuestion`: Transform/Fix prompts become
multiple choice with synthesized options, others free-text fill-in. -/
def generateApplicationQuestion (shuffle : List String → List String)
    (pickPractice pickExample : Nat) (rule : GrammarRule) : Option Question :=
  match pickApplicationPractice pickPractice pickExample rule with
  | none => none
  | some practice =>
    if jsIncludes practice.prompt "Transform:" || jsIncludes practice.prompt "Fix:" then
      some { qtype := "multiple_choice",
             options := some (generateApplicationOptions shuffle practice.answer rule),
             correctAnswer := practice.answer, points := 15 }
    else
      some { qtype := "fill_in_blank", options := none,
             correctAnswer := practice.answer, points := 15 }

/-- The correct sentences sampled by `generateErrorIdentificationQuestion`:
up to two truthy catalog `correct` fields. -/
def eiCorrectSentences (rule : GrammarRule) : List String :=
  ((rule.examples.filter (fun ex => optTruthy ex.correct)).map
    (fun ex => ex.correct.getD "undefined")).take 2

/-- The incorrect sentence presented by the error-identification
question: the first truthy catalog `incorrect`, or the error's own
original sentence when the catalog has none. -/
def eiIncorrectSentence (error : ErrorInfo) (rule : GrammarRule) : String :=
  match rule.examples.find? (fun ex => optTruthy ex.incorrect) with
  | some ex => ex.incorrect.getD "undefined"
  | none => error.exampleText

/-- `generateErrorIdentificationQuestion`: needs at least two catalog
examples; the correct sentences plus the incorrect one, shuffled; the
incorrect sentence is the answer. -/
def generateErrorIdentificationQuestion (shuffle : List String → List String)
    (error : ErrorInfo) (rule : GrammarRule) : Option Question :=
  if rule.examples.length < 2 then none
  else
    some { qtype := "error_identification",
           options := some (shuffle (eiCorrectSentences rule ++ [eiIncorrectSentence error rule])),
           correctAnswer := eiIncorrectSentence error rule, points := 10 }

/-- `generateBlankOptions`: category-aware distractor tokens around the
blanked word, de-duplicated, at most four options. -/
def generateBlankOptions (correctAnswer : String) (rule : GrammarRule) : List String :=
  let options := [correctAnswer]
  let lower := strToLower correctAnswer
  let options :=
    if rule.category = "contractions" then
      if lower = "au" then options ++ ["à le", "à la", "aux"]
      else if lower = "du" then options ++ ["de le", "de la", "des"]
      else if lower = "aux" then options ++ ["à les", "au", "à la"]
      else options
    else if rule.category = "gender-agreement" || jsIncludes rule.category "article" then
      if lower = "le" then options ++ ["la", "les", "un"]
      else if lower = "la" then options ++ ["le", "les", "une"]
      else if lower = "un" then options ++ ["une", "le", "des"]
      else if lower = "une" then options ++ ["un", "la", "des"]
      else options
    else
      options ++ [correctAnswer ++ "s", correctAnswer ++ "e",
                  String.mk (correctAnswer.data.take (correctAnswer.data.length - 1))]
  (jsDedup options).take 4

/-- `generateSentenceConstructionQuestion`: blank the category-relevant
token (or the middle token) of a random correct example.  On an example
without a `correct` field the JS code would throw on
`undefined.split`; the embedding totalises that case with the string
"undefined", which no claim exercises. -/
def generateSentenceConstructionQuestion (pickExample : Nat)
    (rule : GrammarRule) : Option Question :=
  match rule.examples.get? (pickExample % rule.examples.length) with
  | none => none
  | some ex =>
    let correctSentence := ex.correct.getD "undefined"
    let ws := splitSpace correctSentence
    let keyWordIndex :=
      if rule.category = "contractions" then
        match ws.findIdx? (fun w => ["au", "du", "aux", "des"].contains (strToLower w)) with
        | some i => i
        | none => ws.length / 2
      else if rule.category = "gender-agreement" then
        match ws.findIdx? (fun w => ["le", "la", "un", "une", "les", "des"].contains (strToLower w)) with
        | some i => i
        | none => ws.length / 2
      else ws.length / 2
    let blank := (ws.get? keyWordIndex).getD ""
    some { qtype := "fill_in_blank",
           options := some (generateBlankOptions blank rule),
           correctAnswer := blank, points := 15 }

/-- The basic rule ids of `generateDefaultQuiz`. -/
def basicRules : List String := ["contraction-au", "gender-article-masculine", "negation-ne-pas"]

/-- `generateDefaultQuiz`: one multiple-choice question built from a
randomly chosen basic rule; every basic rule id is in the catalog, so
the `none` arm is unreachable (the JS would have thrown there). -/
def generateDefaultQuiz (pickDefault : Nat) : List Question :=
  match lookupRule ((basicRules.get? (pickDefault % 3)).getD "") with
  | none => []
  | some rule =>
    [{ qtype := "multiple_choice",
       options := some ((rule.examples.take 3).map (fun ex => ex.correct.getD "undefined")),
       correctAnswer := (rule.examples.head?.bind (fun ex => ex.correct)).getD "Good job!",
       points := 10 }]

/-- `generateQuizFromError`: a missing error or missing grammar rule
falls back to the default quiz; otherwise the four per-type generators
run in a shuffled order and the first `numQuestions` non-null results
are kept. -/
def generateQuizFromError (oshuffle : List (Option Question) → List (Option Question))
    (shuffle : List String → List String) (pickPractice pickExample pickDefault : Nat)
    (error : Option ErrorInfo) (numQuestions : Nat := 3) : List Question :=
  match error with
  | none => generateDefaultQuiz pickDefault
  | some e =>
    match e.grammarRule with
    | none => generateDefaultQuiz pickDefault
    | some rule =>
      let questionGenerators : List (Option Question) :=
        [some (generateRuleExplanationQuestion shuffle rule),
         generateApplicationQuestion shuffle pickPractice pickExample rule,
         generateErrorIdentificationQuestion shuffle e rule,
         generateSentenceConstructionQuestion pickExample rule]
      let shuffled := oshuffle questionGenerators
      (shuffled.take (min numQuestions shuffled.length)).filterMap id

/-- `generateProgressiveQuiz`: level-gated question types; a missing
rule falls back to the default quiz. -/
def generateProgressiveQuiz (oshuffle : List (Option Question) → List (Option Question))
    (shuffle : List String → List String) (pickPractice pickExample pickDefault : Nat)
    (error : Option ErrorInfo) (userLevel : Nat) : List Question :=
  match error with
  | none => generateDefaultQuiz pickDefault
  | some e =>
    match e.grammarRule with
    | none => generateDefaultQuiz pickDefault
    | some rule =>
      if userLevel = 1 then
        [generateErrorIdentificationQuestion shuffle e rule].filterMap id
      else if userLevel = 2 then
        [generateErrorIdentificationQuestion shuffle e rule,
         some (generateRuleExplanationQuestion shuffle rule)].filterMap id
      else if userLevel = 3 then
        [some (generateRuleExplanationQuestion shuffle rule),
         generateApplicationQuestion shuffle pickPractice pickExample rule].filterMap id
      else if userLevel = 4 then
        [generateApplicationQuestion shuffle pickPractice pickExample rule,
         generateSentenceConstructionQuestion pickExample rule].filterMap id
      else
        generateQuizFromError oshuffle shuffle pickPractice pickExample pickDefault (some e) 2

/-- One raw error from the upstream correction source; the JS field
`example` is called `exampleText`. -/
structure ErrorInput where
  issue : String := ""
  exampleText : String := ""
  suggestion : String := ""
deriving Repr, DecidableEq

/-- The per-error enrichment of `analyzeErrors`: classify the pair and
attach the matched rule. -/
def analyzeError (e : ErrorInput) : ErrorInfo :=
  let detection := detectErrorType e.exampleText e.suggestion e.issue
  { exampleText := e.exampleText, suggestion := e.suggestion, grammarRule := detection.rule }

/-- `analyzeErrors`: enrich every error of a correction result. -/
def analyzeErrors (errors : List ErrorInput) : List ErrorInfo :=
  errors.map analyzeError

/-! ## Theorems -/

/-! ## Tracker theorems -/

/-- Experience needed for account level 2: `floor(100 * 2^1.5) = 282`. -/
theorem getExperienceForLevel_two : getExperienceForLevel 2 = 282 := by
  norm_num [getExperienceForLevel, Nat.sqrt]

/-- C1: with rule A at 3/10 correct and rule B at 4/10 correct (both
below 0.7 accuracy with at least 2 attempts), `getWeakRules(1)` returns
exactly `["A"]`: the accuracy difference does not exceed the 0.1 band,
the attempts tie-break compares equal, and the stable sort keeps A
(accuracy 0.3) before B (accuracy 0.4). -/
theorem C1_getWeakRules_scenario :
    getWeakRules
      { defaultProgress with rulesMastery :=
          [("A", { attempts := 10, correct := 3, level := 1, totalPoints := 0 }),
           ("B", { attempts := 10, correct := 4, level := 1, totalPoints := 0 })] }
      1 = ["A"] := by
  norm_num [getWeakRules, defaultProgress, accuracyOrZero, accuracy, sortByCmp,
    insertCmp, weakCmp, jsAbs, List.filter]

/-- C2 fails on the code: a rule at 3 correct out of 5 attempts has
accuracy 0.6, inside the band the claim assigns to `progressing`
(0.5 ≤ accuracy < 0.9), yet `getRulePerformance` reports the
undocumented status `learning`. -/
theorem C2_counterexample :
    getRulePerformanceStatus
      { defaultProgress with rulesMastery :=
          [("r", { attempts := 5, correct := 3, level := 1, totalPoints := 0 })] }
      "r" = "learning" ∧
    accuracy { attempts := 5, correct := 3, level := 1, totalPoints := 0 } = 3 / 5 ∧
    (1 : ℚ) / 2 ≤ 3 / 5 ∧ (3 : ℚ) / 5 < 9 / 10 ∧
    "learning" ≠ "progressing" := by
  refine ⟨?_, by norm_num [accuracy], by norm_num, by norm_num, by decide⟩
  norm_num [getRulePerformanceStatus, defaultProgress, lookupMastery, ruleStatus, accuracy]

/-- C2 (amended): for a rule with recorded attempts the derived status
is `struggling` when accuracy < 0.5, `mastered` when accuracy ≥ 0.9 with
at least 5 attempts, `progressing` when accuracy ≥ 0.7 otherwise, and
`learning` — a status the claim omits — when 0.5 ≤ accuracy < 0.7; a
rule with no record or zero attempts has status `new`. -/
theorem C2_status_amended (p : UserProgress) (rid : String) :
    (lookupMastery p.rulesMastery rid = none → getRulePerformanceStatus p rid = "new") ∧
    (∀ m, lookupMastery p.rulesMastery rid = some m → m.attempts = 0 →
      getRulePerformanceStatus p rid = "new") ∧
    (∀ m, lookupMastery p.rulesMastery rid = some m → 1 ≤ m.attempts →
      getRulePerformanceStatus p rid = ruleStatus m ∧
      (accuracy m < 0.5 → ruleStatus m = "struggling") ∧
      (accuracy m ≥ 0.9 ∧ m.attempts ≥ 5 → ruleStatus m = "mastered") ∧
      (accuracy m ≥ 0.7 ∧ ¬(accuracy m ≥ 0.9 ∧ m.attempts ≥ 5) →
        ruleStatus m = "progressing") ∧
      (0.5 ≤ accuracy m ∧ accuracy m < 0.7 → ruleStatus m = "learning")) := by
  refine ⟨fun h => by simp [getRulePerformanceStatus, h], ?_, ?_⟩
  · intro m hm h0
    simp [getRulePerformanceStatus, hm, h0]
  · intro m hm h1
    have hne : m.attempts ≠ 0 := by omega
    refine ⟨by simp [getRulePerformanceStatus, hm, hne], ?_, ?_, ?_, ?_⟩
    · intro hlt
      have h9 : ¬(accuracy m ≥ 0.9 ∧ m.attempts ≥ 5) := fun h => absurd h.1 (by linarith)
      have h7 : ¬(accuracy m ≥ 0.7) := by linarith
      simp [ruleStatus, h9, h7, hlt]
    · intro h
      simp [ruleStatus, h]
    · intro ⟨h7, h9⟩
      simp [ruleStatus, h9, h7]
    · intro ⟨h5, h7⟩
      have h9 : ¬(accuracy m ≥ 0.9 ∧ m.attempts ≥ 5) := fun h => absurd h.1 (by linarith)
      simp [ruleStatus, h9, not_le.mpr h7, not_lt.mpr h5]

/-- Closed instance of the amended C2 theorem: a rule at 3/4 correct
(accuracy 0.75) reports status `progressing`. -/
theorem C2_status_amended_witness :
    getRulePerformanceStatus
      { defaultProgress with rulesMastery :=
          [("r", { attempts := 4, correct := 3, level := 1, totalPoints := 0 })] }
      "r" = "progressing" := by
  have h := (C2_status_amended
    { defaultProgress with rulesMastery :=
        [("r", { attempts := 4, correct := 3, level := 1, totalPoints := 0 })] }
    "r").2.2
    { attempts := 4, correct := 3, level := 1, totalPoints := 0 }
    (by decide) (by norm_num)
  refine h.1.trans (h.2.2.2.1 ⟨by norm_num [accuracy], ?_⟩)
  rintro ⟨h9, -⟩
  norm_num [accuracy] at h9

/-- Normal form of `recordAttemptRule` used by the proofs. -/
theorem recordAttemptRule_eq (m : RuleMastery) (c : Bool) (pts : Nat) :
    recordAttemptRule m c pts =
      (if accuracy (bump m c pts) ≥ 0.9 ∧ (bump m c pts).attempts ≥ 5 then
        { bump m c pts with level := min 4 (m.level + 1) }
      else if accuracy (bump m c pts) < 0.5 ∧ (bump m c pts).attempts ≥ 3 then
        { bump m c pts with level := max 1 (m.level - 1) }
      else bump m c pts) := rfl

/-- Projection facts for `bump`. -/
theorem bump_attempts (m : RuleMastery) (c : Bool) (pts : Nat) :
    (bump m c pts).attempts = m.attempts + 1 := rfl

/-- The level decision does not change the counters, so the attempts
counter always increments by one. -/
theorem recordAttemptRule_attempts (m : RuleMastery) (c : Bool) (pts : Nat) :
    (recordAttemptRule m c pts).attempts = m.attempts + 1 := by
  rw [recordAttemptRule_eq]
  split_ifs <;> rfl

/-- The level decision does not change the counters, so the trailing
accuracy of the result is that of the bumped record. -/
theorem recordAttemptRule_accuracy (m : RuleMastery) (c : Bool) (pts : Nat) :
    accuracy (recordAttemptRule m c pts) = accuracy (bump m c pts) := by
  rw [recordAttemptRule_eq]
  split_ifs <;> rfl

/-- State after one correct call on a fresh progress. -/
theorem caStep_one :
    caStep defaultProgress =
      { rulesMastery := [("contraction-au", { attempts := 1, correct := 1, level := 1, totalPoints := 10 })],
        totalQuizzes := 1, totalCorrect := 1, streak := 1, lastPracticeDate := some 0,
        level := 1, experience := 10 } := by
  norm_num [caStep, recordAttempt, recordAttemptRule, updateMastery, streakNext,
    getExperienceForLevel_two, accuracy, freshRuleMastery, defaultProgress]

/-- State after two correct calls. -/
theorem caStep_two :
    caStep (caStep defaultProgress) =
      { rulesMastery := [("contraction-au", { attempts := 2, correct := 2, level := 1, totalPoints := 20 })],
        totalQuizzes := 2, totalCorrect := 2, streak := 1, lastPracticeDate := some 0,
        level := 1, experience := 20 } := by
  rw [caStep_one]
  norm_num [caStep, recordAttempt, recordAttemptRule, updateMastery, streakNext,
    getExperienceForLevel_two, accuracy, freshRuleMastery]

/-- State after three correct calls. -/
theorem caStep_three :
    caStep (caStep (caStep defaultProgress)) =
      { rulesMastery := [("contraction-au", { attempts := 3, correct := 3, level := 1, totalPoints := 30 })],
        totalQuizzes := 3, totalCorrect := 3, streak := 1, lastPracticeDate := some 0,
        level := 1, experience := 30 } := by
  rw [caStep_two]
  norm_num [caStep, recordAttempt, recordAttemptRule, updateMastery, streakNext,
    getExperienceForLevel_two, accuracy, freshRuleMastery]

/-- State after four correct calls. -/
theorem caStep_four :
    caStep (caStep (caStep (caStep defaultProgress))) =
      { rulesMastery := [("contraction-au", { attempts := 4, correct := 4, level := 1, totalPoints := 40 })],
        totalQuizzes := 4, totalCorrect := 4, streak := 1, lastPracticeDate := some 0,
        level := 1, experience := 40 } := by
  rw [caStep_three]
  norm_num [caStep, recordAttempt, recordAttemptRule, updateMastery, streakNext,
    getExperienceForLevel_two, accuracy, freshRuleMastery]

/-- State after five correct calls: accuracy 1.0 over 5 attempts
promotes the rule to level 2. -/
theorem caStep_five :
    caStep (caStep (caStep (caStep (caStep defaultProgress)))) =
      { rulesMastery := [("contraction-au", { attempts := 5, correct := 5, level := 2, totalPoints := 50 })],
        totalQuizzes := 5, totalCorrect := 5, streak := 1, lastPracticeDate := some 0,
        level := 1, experience := 50 } := by
  rw [caStep_four]
  norm_num [caStep, recordAttempt, recordAttemptRule, updateMastery, streakNext,
    getExperienceForLevel_two, accuracy, freshRuleMastery]

/-- C4: a `recordAttempt` call on a rule whose level is in the valid
band 1..4 changes the level exactly by the lagging rule — promotion to
`min(4, level+1)` at trailing accuracy ≥ 0.9 with ≥ 5 attempts, demotion
to `max(1, level-1)` at accuracy < 0.5 with ≥ 3 attempts, otherwise no
change — so the level never moves while attempts < 3 and moves by at
most 1; five consecutive correct calls on a fresh rule leave it at
level 1 through attempt 4 and raise it to 2 at attempt 5. -/
theorem C4_mastery_level_rule (m : RuleMastery) (c : Bool) (pts : Nat)
    (hl1 : 1 ≤ m.level) (hl4 : m.level ≤ 4) :
    (recordAttemptRule m c pts).attempts = m.attempts + 1 ∧
    ((recordAttemptRule m c pts).attempts < 3 →
      (recordAttemptRule m c pts).level = m.level) ∧
    ((recordAttemptRule m c pts).level ≤ m.level + 1 ∧
      m.level ≤ (recordAttemptRule m c pts).level + 1) ∧
    (accuracy (recordAttemptRule m c pts) ≥ 0.9 ∧ (recordAttemptRule m c pts).attempts ≥ 5 →
      (recordAttemptRule m c pts).level = min 4 (m.level + 1)) ∧
    (accuracy (recordAttemptRule m c pts) < 0.5 ∧ (recordAttemptRule m c pts).attempts ≥ 3 →
      (recordAttemptRule m c pts).level = max 1 (m.level - 1)) ∧
    (¬(accuracy (recordAttemptRule m c pts) ≥ 0.9 ∧ (recordAttemptRule m c pts).attempts ≥ 5) →
     ¬(accuracy (recordAttemptRule m c pts) < 0.5 ∧ (recordAttemptRule m c pts).attempts ≥ 3) →
      (recordAttemptRule m c pts).level = m.level) ∧
    (getRuleMastery (caStep defaultProgress) "contraction-au" = 1 ∧
     getRuleMastery (caStep (caStep (caStep (caStep defaultProgress)))) "contraction-au" = 1 ∧
     getRuleMastery (caStep (caStep (caStep (caStep (caStep defaultProgress))))) "contraction-au" = 2) := by
  have hscen :
      getRuleMastery (caStep defaultProgress) "contraction-au" = 1 ∧
      getRuleMastery (caStep (caStep (caStep (caStep defaultProgress)))) "contraction-au" = 1 ∧
      getRuleMastery (caStep (caStep (caStep (caStep (caStep defaultProgress))))) "contraction-au" = 2 := by
    rw [caStep_five, caStep_four, caStep_one]
    refine ⟨?_, ?_, ?_⟩ <;> decide
  simp only [recordAttemptRule_attempts, recordAttemptRule_accuracy]
  rw [recordAttemptRule_eq]
  simp only [bump_attempts]
  split_ifs with h1 h2 <;> dsimp only [bump]
  · exact ⟨trivial,
      fun h => by omega,
      by omega,
      fun _ => rfl,
      fun h => absurd (lt_of_le_of_lt h1.1 h.1) (by norm_num),
      fun hn _ => absurd h1 hn,
      hscen⟩
  · exact ⟨trivial,
      fun h => by omega,
      by omega,
      fun h => absurd h h1,
      fun _ => rfl,
      fun _ hn => absurd h2 hn,
      hscen⟩
  · exact ⟨trivial,
      fun _ => rfl,
      by omega,
      fun h => absurd h h1,
      fun h => absurd h h2,
      fun _ _ => rfl,
      hscen⟩

/-- Closed instance of the C4 theorem: the first attempt on a fresh
rule cannot change its level. -/
theorem C4_mastery_level_rule_witness :
    (recordAttemptRule { attempts := 0, correct := 0, level := 1, totalPoints := 0 } true 10).level = 1 := by
  have h := C4_mastery_level_rule
    { attempts := 0, correct := 0, level := 1, totalPoints := 0 } true 10
    (by norm_num) (by norm_num)
  exact h.2.1 (by rw [recordAttemptRule_attempts]; norm_num)

/-- C5: `recordAttempt` updates the streak by calendar-day comparison —
same day leaves it unchanged, exactly one day later increments it by 1,
and any other gap (or no prior practice at all) resets it to 1. -/
theorem C5_streak_calendar (p : UserProgress) (rid : String) (c : Bool)
    (pts : Nat) (today : Int) :
    (p.lastPracticeDate = some today →
      (recordAttempt p rid c pts today).streak = p.streak) ∧
    (p.lastPracticeDate = some (today - 1) →
      (recordAttempt p rid c pts today).streak = p.streak + 1) ∧
    (∀ d, p.lastPracticeDate = some d → d ≠ today → d ≠ today - 1 →
      (recordAttempt p rid c pts today).streak = 1) ∧
    (p.lastPracticeDate = none →
      (recordAttempt p rid c pts today).streak = 1) := by
  have hs : (recordAttempt p rid c pts today).streak =
      streakNext p.streak p.lastPracticeDate today := by
    simp only [recordAttempt]
    split_ifs <;> rfl
  refine ⟨?_, ?_, ?_, ?_⟩
  · intro h
    rw [hs, h]
    simp [streakNext]
  · intro h
    rw [hs, h]
    simp only [streakNext]
    rw [if_neg (by omega : ¬(today - 1 = today))]
    simp
  · intro d h hne hne1
    rw [hs, h]
    simp only [streakNext]
    rw [if_neg hne, if_neg hne1]
  · intro h
    rw [hs, h]
    rfl

/-- Closed instance of the C5 theorem: practising one day after the
recorded date bumps a 3-day streak to 4. -/
theorem C5_streak_calendar_witness :
    (recordAttempt
      { rulesMastery := [], totalQuizzes := 0, totalCorrect := 0, streak := 3,
        lastPracticeDate := some 4, level := 1, experience := 0 }
      "r" true 0 5).streak = 3 + 1 := by
  exact (C5_streak_calendar
    { rulesMastery := [], totalQuizzes := 0, totalCorrect := 0, streak := 3,
      lastPracticeDate := some 4, level := 1, experience := 0 }
    "r" true 0 5).2.1 (by norm_num)

/-- State after six correct calls. -/
theorem caStep_six :
    caStep (caStep (caStep (caStep (caStep (caStep defaultProgress))))) =
      { rulesMastery := [("contraction-au", { attempts := 6, correct := 6, level := 3, totalPoints := 60 })],
        totalQuizzes := 6, totalCorrect := 6, streak := 1, lastPracticeDate := some 0,
        level := 1, experience := 60 } := by
  rw [caStep_five]
  norm_num [caStep, recordAttempt, recordAttemptRule, updateMastery, streakNext,
    getExperienceForLevel_two, accuracy, freshRuleMastery]

/-- The C9 state evaluated: 7 attempts, 6 correct, level 3. -/
theorem progC9_eq :
    progC9 =
      { rulesMastery := [("contraction-au", { attempts := 7, correct := 6, level := 3, totalPoints := 60 })],
        totalQuizzes := 7, totalCorrect := 6, streak := 1, lastPracticeDate := some 0,
        level := 1, experience := 60 } := by
  rw [progC9, caStep_six]
  norm_num [caMiss, recordAttempt, recordAttemptRule, updateMastery, streakNext,
    getExperienceForLevel_two, accuracy, freshRuleMastery]

/-- C9: `getMasteredRules` lists exactly the rules with accuracy ≥ 0.85
over ≥ 5 attempts, a weaker bar than the `mastered` status of
`getRulePerformance` (accuracy ≥ 0.9); the reachable state `progC9`
(accuracy 6/7 ∈ [0.85, 0.9), 7 attempts) is listed as mastered while
its status is only `progressing`. -/
theorem C9_mastered_vs_status (p : UserProgress) (r : String) :
    (r ∈ getMasteredRules p ↔
      ∃ m, (r, m) ∈ p.rulesMastery ∧ accuracy m ≥ 0.85 ∧ m.attempts ≥ 5) ∧
    (getMasteredRules progC9 = ["contraction-au"] ∧
     accuracy { attempts := 7, correct := 6, level := 3, totalPoints := 60 } ≥ 0.85 ∧
     accuracy { attempts := 7, correct := 6, level := 3, totalPoints := 60 } < 0.9 ∧
     getRulePerformanceStatus progC9 "contraction-au" = "progressing" ∧
     "progressing" ≠ "mastered") := by
  constructor
  · simp only [getMasteredRules, List.mem_map, List.mem_filter, decide_eq_true_eq]
    constructor
    · rintro ⟨⟨r', m⟩, ⟨hmem, hpred⟩, rfl⟩
      have hpos : 0 < m.attempts := lt_of_lt_of_le (by norm_num) hpred.2
      rw [accuracyOrZero, if_pos hpos] at hpred
      exact ⟨m, hmem, hpred.1, hpred.2⟩
    · rintro ⟨m, hmem, hacc, hatt⟩
      refine ⟨(r, m), ⟨hmem, ?_, hatt⟩, rfl⟩
      rw [accuracyOrZero, if_pos (lt_of_lt_of_le (by norm_num : (0:Nat) < 5) hatt)]
      exact hacc
  · rw [progC9_eq]
    refine ⟨?_, by norm_num [accuracy], by norm_num [accuracy], ?_, by decide⟩
    · norm_num [getMasteredRules, accuracyOrZero, accuracy, List.filter]
    · norm_num [getRulePerformanceStatus, lookupMastery, ruleStatus, accuracy]

/-- Closed instance of the C9 theorem: the rule of `progC9` is a member
of the mastered list. -/
theorem C9_mastered_vs_status_witness :
    "contraction-au" ∈ getMasteredRules progC9 := by
  refine ((C9_mastered_vs_status progC9 "contraction-au").1).mpr
    ⟨{ attempts := 7, correct := 6, level := 3, totalPoints := 60 }, ?_, by norm_num [accuracy], by norm_num⟩
  rw [progC9_eq]
  simp

/-! ## Classifier theorems -/

/-- The catalog lookup of the contraction-au rule. -/
theorem lookupRule_contraction_au : lookupRule "contraction-au" = some ruleContractionAu := by
  decide

/-- The catalog has no `contraction-des` entry. -/
theorem lookupRule_contraction_des : lookupRule "contraction-des" = none := by
  decide

/-- Every contraction-detector result has confidence at most 0.95. -/
theorem detectContractionErrors_le (o c d : String) :
    (detectContractionErrors o c d).confidence ≤ 0.95 := by
  unfold detectContractionErrors
  split
  · rename_i p hp
    have hmem := List.mem_of_find?_eq_some hp
    simp only [contractionPatterns, List.mem_cons, List.not_mem_nil, or_false] at hmem
    rcases hmem with rfl | rfl | rfl | rfl <;> norm_num
  · split_ifs <;> norm_num [noDetect]

/-- Every gender-scan hit has confidence 0.85. -/
theorem genderScan_confidence (os : List String) : ∀ (cs : List String) (r : DetectResult),
    genderScan os cs = some r → r.confidence = 0.85 := by
  induction os with
  | nil => intro cs r h; simp [genderScan] at h
  | cons ow os ih =>
    intro cs r h
    cases cs with
    | nil => simp [genderScan] at h
    | cons cw cs =>
      rw [genderScan] at h
      split_ifs at h
      · injection h with h'
        rw [← h']
      · injection h with h'
        rw [← h']
      · exact ih cs r h

/-- Every gender-detector result has confidence at most 0.95. -/
theorem detectGenderArticleErrors_le (o c d : String) :
    (detectGenderArticleErrors o c d).confidence ≤ 0.95 := by
  unfold detectGenderArticleErrors
  split
  · rename_i r hr
    rw [genderScan_confidence _ _ _ hr]
    norm_num
  · split_ifs <;> norm_num [noDetect]

/-- Every description-fallback verb result has confidence at most 0.95. -/
theorem verbDescFallback_le (d : String) : (verbDescFallback d).confidence ≤ 0.95 := by
  unfold verbDescFallback
  split_ifs <;> norm_num [noDetect]

/-- Every verb-detector result has confidence at most 0.95. -/
theorem detectVerbConjugationErrors_le (o c d : String) :
    (detectVerbConjugationErrors o c d).confidence ≤ 0.95 := by
  unfold detectVerbConjugationErrors
  split
  · split_ifs
    · split
      · norm_num
      · exact verbDescFallback_le d
    · exact verbDescFallback_le d
  · exact verbDescFallback_le d

/-- Every adjective-scan hit has confidence at most 0.95. -/
theorem adjectiveScan_le (os : List String) : ∀ (cs : List String) (r : DetectResult),
    adjectiveScan os cs = some r → r.confidence ≤ 0.95 := by
  induction os with
  | nil => intro cs r h; simp [adjectiveScan] at h
  | cons ow os ih =>
    intro cs r h
    cases cs with
    | nil => simp [adjectiveScan] at h
    | cons cw cs =>
      rw [adjectiveScan] at h
      split_ifs at h
      · injection h with h'
        rw [← h']
        norm_num
      · injection h with h'
        rw [← h']
        norm_num
      · split at h
        · injection h with h'
          rw [← h']
          norm_num
        · exact ih cs r h
      · exact ih cs r h

/-- Every adjective-detector result has confidence at most 0.95. -/
theorem detectAdjectiveAgreementErrors_le (o c d : String) :
    (detectAdjectiveAgreementErrors o c d).confidence ≤ 0.95 := by
  unfold detectAdjectiveAgreementErrors
  split
  · rename_i r hr
    exact adjectiveScan_le _ _ _ hr
  · split_ifs <;> norm_num [noDetect]

/-- Every preposition-detector result has confidence at most 0.95. -/
theorem detectPrepositionErrors_le (o c d : String) :
    (detectPrepositionErrors o c d).confidence ≤ 0.95 := by
  unfold detectPrepositionErrors
  split
  · norm_num
  · split_ifs <;> norm_num [noDetect]

/-- Every negation-detector result has confidence at most 0.95. -/
theorem detectNegationErrors_le (o c d : String) :
    (detectNegationErrors o c d).confidence ≤ 0.95 := by
  simp only [detectNegationErrors]
  split_ifs <;> norm_num [noDetect]

/-- Every partitive-detector result has confidence at most 0.95. -/
theorem detectPartitiveArticleErrors_le (o c d : String) :
    (detectPartitiveArticleErrors o c d).confidence ≤ 0.95 := by
  simp only [detectPartitiveArticleErrors]
  split_ifs <;> norm_num [noDetect]

/-- Every pronoun-detector result has confidence at most 0.95. -/
theorem detectPronounErrors_le (o c d : String) :
    (detectPronounErrors o c d).confidence ≤ 0.95 := by
  unfold detectPronounErrors
  split_ifs <;> norm_num [noDetect]

/-- When the contraction detector (the first in the battery) reports
confidence 0.95, no later detector can strictly beat it, so the fold of
the battery returns exactly the contraction result. -/
theorem detectErrorType_eq_of_contraction (o c d : String) (ho : ¬o = "") (hc : ¬c = "")
    (r : DetectResult)
    (hr : detectContractionErrors (strTrim (strToLower o)) (strTrim (strToLower c))
      (strToLower d) = r)
    (hconf : r.confidence = 0.95) :
    detectErrorType o c d = r := by
  unfold detectErrorType
  rw [if_neg (by simp [ho, hc])]
  simp only [detectors, List.foldl]
  rw [hr]
  have hfirst : better unknownDetect r = r := by
    unfold better
    rw [if_pos (by rw [hconf]; norm_num [unknownDetect])]
  have hb : ∀ s : DetectResult, s.confidence ≤ 0.95 → better r s = r := by
    intro s hs
    unfold better
    rw [if_neg (by rw [hconf]; exact not_lt.mpr hs)]
  rw [hfirst, hb _ (detectGenderArticleErrors_le _ _ _),
    hb _ (detectVerbConjugationErrors_le _ _ _),
    hb _ (detectAdjectiveAgreementErrors_le _ _ _),
    hb _ (detectPrepositionErrors_le _ _ _),
    hb _ (detectNegationErrors_le _ _ _),
    hb _ (detectPartitiveArticleErrors_le _ _ _),
    hb _ (detectPronounErrors_le _ _ _)]

/-- C3: a classification whose normalized original contains the
adjacent words "à le" and whose normalized correction contains the word
"au" is classified `contraction-au` at confidence 0.95 (≥ 0.85, and
≥ 0.9 as in the concrete scenario), because the contraction detector
fires structurally and no detector in the battery ever reports more
than 0.95; the scenario sentence evaluates accordingly. -/
theorem C3_classify_contraction_au (o c d : String) (ho : o ≠ "") (hc : c ≠ "")
    (hadj : hasAdjacent "à" "le" (words (strTrim (strToLower o))) = true)
    (hau : wordIn "au" (strTrim (strToLower c)) = true) :
    detectErrorType o c d =
      { etype := some "contraction-au", confidence := 0.95, rule := some ruleContractionAu } ∧
    (0.85 : ℚ) ≤ 0.95 ∧
    detectErrorType "Je vais à le parc" "Je vais au parc" "" =
      { etype := some "contraction-au", confidence := 0.95, rule := some ruleContractionAu } ∧
    (0.9 : ℚ) ≤ 0.95 ∧
    (∀ f ∈ detectors, ∀ o' c' d' : String, (f o' c' d').confidence ≤ 0.95) := by
  have hmain : ∀ o' c' d' : String, o' ≠ "" → c' ≠ "" →
      hasAdjacent "à" "le" (words (strTrim (strToLower o'))) = true →
      wordIn "au" (strTrim (strToLower c')) = true →
      detectErrorType o' c' d' =
        { etype := some "contraction-au", confidence := 0.95, rule := some ruleContractionAu } := by
    intro o' c' d' ho' hc' hadj' hau'
    apply detectErrorType_eq_of_contraction o' c' d' ho' hc'
    · unfold detectContractionErrors
      simp only [contractionPatterns]
      rw [List.find?_cons_of_pos _ (by simp [hadj', hau'])]
      simp [lookupRule_contraction_au]
    · rfl
  refine ⟨hmain o c d ho hc hadj hau, by norm_num, ?_, by norm_num, ?_⟩
  · exact hmain "Je vais à le parc" "Je vais au parc" ""
      (by decide) (by decide) (by decide) (by decide)
  · intro f hf o' c' d'
    simp only [detectors, List.mem_cons, List.not_mem_nil, or_false] at hf
    rcases hf with rfl | rfl | rfl | rfl | rfl | rfl | rfl | rfl
    · exact detectContractionErrors_le o' c' d'
    · exact detectGenderArticleErrors_le o' c' d'
    · exact detectVerbConjugationErrors_le o' c' d'
    · exact detectAdjectiveAgreementErrors_le o' c' d'
    · exact detectPrepositionErrors_le o' c' d'
    · exact detectNegationErrors_le o' c' d'
    · exact detectPartitiveArticleErrors_le o' c' d'
    · exact detectPronounErrors_le o' c' d'

/-- Closed instance of the C3 theorem at the scenario input. -/
theorem C3_classify_contraction_au_witness :
    detectErrorType "Je vais à le parc" "Je vais au parc" "" =
      { etype := some "contraction-au", confidence := 0.95, rule := some ruleContractionAu } := by
  exact (C3_classify_contraction_au "Je vais à le parc" "Je vais au parc" ""
    (by decide) (by decide) (by decide) (by decide)).1

/-- C7: an empty original or corrected text makes `classify` return the
guard result — type `unknown`, confidence 0, no rule — before the
detector battery is folded (the guard is the first branch of
`detectErrorType`, so no detector is invoked); the embedding is a total
function, so the call cannot raise. -/
theorem C7_classify_empty_guard (original corrected desc : String)
    (h : original = "" ∨ corrected = "") :
    detectErrorType original corrected desc = unknownDetect ∧
    (detectErrorType original corrected desc).etype = some "unknown" ∧
    (detectErrorType original corrected desc).confidence = 0 ∧
    (detectErrorType original corrected desc).rule = none := by
  have he : detectErrorType original corrected desc = unknownDetect := by
    unfold detectErrorType
    rcases h with h | h <;> rw [if_pos (by simp [h])]
  exact ⟨he, by rw [he]; rfl, by rw [he]; rfl, by rw [he]; rfl⟩

/-- Closed instance of the C7 theorem: empty original text. -/
theorem C7_classify_empty_guard_witness :
    detectErrorType "" "Je vais au parc" "gender" = unknownDetect := by
  exact (C7_classify_empty_guard "" "Je vais au parc" "gender" (Or.inl rfl)).1

/-! ## Default quiz and error-handling theorems -/

/-- `generateDefaultQuiz` only depends on the pick modulo 3. -/
theorem generateDefaultQuiz_mod (pick : Nat) :
    generateDefaultQuiz pick = generateDefaultQuiz (pick % 3) := by
  unfold generateDefaultQuiz
  have h : pick % 3 % 3 = pick % 3 := by omega
  rw [h]

/-- Default quiz from the contraction-au basic rule. -/
theorem generateDefaultQuiz_zero :
    generateDefaultQuiz 0 =
      [{ qtype := "multiple_choice",
         options := some ["Je vais au parc", "Il est au cinéma", "au marché"],
         correctAnswer := "Je vais au parc", points := 10 }] := by
  decide

/-- Default quiz from the masculine-article basic rule. -/
theorem generateDefaultQuiz_one :
    generateDefaultQuiz 1 =
      [{ qtype := "multiple_choice",
         options := some ["le chat", "le livre", "un garçon"],
         correctAnswer := "le chat", points := 10 }] := by
  decide

/-- Default quiz from the negation basic rule. -/
theorem generateDefaultQuiz_two :
    generateDefaultQuiz 2 =
      [{ qtype := "multiple_choice",
         options := some ["Je ne parle pas français", "Il ne mange pas", "Je n\x27aime pas"],
         correctAnswer := "Je ne parle pas français", points := 10 }] := by
  decide

/-- For every pick the default quiz is one well-formed item: its
options list exists, contains the correct answer exactly once, and has
no duplicates. -/
theorem generateDefaultQuiz_spec (pick : Nat) :
    generateDefaultQuiz pick ≠ [] ∧
    ∀ q ∈ generateDefaultQuiz pick, ∃ opts, q.options = some opts ∧
      opts.count q.correctAnswer = 1 ∧ opts.Nodup := by
  have h3 : pick % 3 = 0 ∨ pick % 3 = 1 ∨ pick % 3 = 2 := by omega
  rw [generateDefaultQuiz_mod]
  rcases h3 with h | h | h <;> rw [h]
  · rw [generateDefaultQuiz_zero]
    refine ⟨by simp, ?_⟩
    intro q hq
    rw [List.mem_singleton] at hq
    subst hq
    exact ⟨_, rfl, by decide, by decide⟩
  · rw [generateDefaultQuiz_one]
    refine ⟨by simp, ?_⟩
    intro q hq
    rw [List.mem_singleton] at hq
    subst hq
    exact ⟨_, rfl, by decide, by decide⟩
  · rw [generateDefaultQuiz_two]
    refine ⟨by simp, ?_⟩
    intro q hq
    rw [List.mem_singleton] at hq
    subst hq
    exact ⟨_, rfl, by decide, by decide⟩

/-- C8: with a missing error object or a classification that carries no
grammar rule, `generateQuizFromError` returns the default quiz — a
non-empty list whose single item carries an options list containing its
correct answer exactly once — and never an empty list. -/
theorem C8_null_rule_default_quiz
    (oshuffle : List (Option Question) → List (Option Question))
    (shuffle : List String → List String)
    (pickPractice pickExample pickDefault : Nat) (error : Option ErrorInfo)
    (h : error = none ∨ ∃ e, error = some e ∧ e.grammarRule = none) :
    generateQuizFromError oshuffle shuffle pickPractice pickExample pickDefault error 3 =
      generateDefaultQuiz pickDefault ∧
    generateQuizFromError oshuffle shuffle pickPractice pickExample pickDefault error 3 ≠ [] ∧
    ∀ q ∈ generateQuizFromError oshuffle shuffle pickPractice pickExample pickDefault error 3,
      ∃ opts, q.options = some opts ∧ opts.count q.correctAnswer = 1 ∧ opts.Nodup := by
  have hd : generateQuizFromError oshuffle shuffle pickPractice pickExample pickDefault error 3 =
      generateDefaultQuiz pickDefault := by
    rcases h with h | ⟨e, he, hg⟩
    · rw [h]
      rfl
    · rw [he]
      simp only [generateQuizFromError]
      rw [hg]
  refine ⟨hd, ?_, ?_⟩
  · rw [hd]
    exact (generateDefaultQuiz_spec pickDefault).1
  · rw [hd]
    exact (generateDefaultQuiz_spec pickDefault).2

/-- Closed instance of the C8 theorem: no error object at all. -/
theorem C8_null_rule_default_quiz_witness :
    generateQuizFromError id id 0 0 0 none 3 = generateDefaultQuiz 0 := by
  exact (C8_null_rule_default_quiz id id 0 0 0 none (Or.inl rfl)).1

/-- C10 fails as stated: an original containing "de les" whose
correction contains "des" can also match an earlier contraction
pattern, which wins — here "à le"→"au" is found first, so the result is
`contraction-au` with a present rule object, not `contraction-des` with
a null rule. -/
theorem C10_counterexample :
    hasAdjacent "de" "les"
      (words (strTrim (strToLower "je vais à le parc de les amis"))) = true ∧
    wordIn "des" (strTrim (strToLower "je vais au parc des amis")) = true ∧
    detectErrorType "je vais à le parc de les amis" "je vais au parc des amis" "" =
      { etype := some "contraction-au", confidence := 0.95, rule := some ruleContractionAu } ∧
    (some "contraction-au" : Option String) ≠ some "contraction-des" ∧
    (some ruleContractionAu : Option GrammarRule) ≠ none := by
  refine ⟨by decide, by decide, ?_, by decide, by decide⟩
  apply detectErrorType_eq_of_contraction _ _ _ (by decide) (by decide)
  · unfold detectContractionErrors
    simp only [contractionPatterns]
    rw [List.find?_cons_of_pos _ (by decide)]
    simp [lookupRule_contraction_au]
  · rfl

set_option maxHeartbeats 1000000 in
/-- C10 (amended): when the original contains adjacent words "de les"
and the correction the word "des", and no earlier contraction pattern
(à le→au, de le→du, à les→aux) also matches, `classify` returns type
`contraction-des` at confidence 0.95 with a null rule object — the
catalog has no `contraction-des` entry — and quiz generation on the
analyzed error degrades to the (non-empty) default quiz. -/
theorem C10_contraction_des_null_rule (o c d : String) (ho : o ≠ "") (hc : c ≠ "")
    (hadj : hasAdjacent "de" "les" (words (strTrim (strToLower o))) = true)
    (hdes : wordIn "des" (strTrim (strToLower c)) = true)
    (h1 : (hasAdjacent "à" "le" (words (strTrim (strToLower o))) &&
      wordIn "au" (strTrim (strToLower c))) = false)
    (h2 : (hasAdjacent "de" "le" (words (strTrim (strToLower o))) &&
      wordIn "du" (strTrim (strToLower c))) = false)
    (h3 : (hasAdjacent "à" "les" (words (strTrim (strToLower o))) &&
      wordIn "aux" (strTrim (strToLower c))) = false) :
    detectErrorType o c d =
      { etype := some "contraction-des", confidence := 0.95, rule := none } ∧
    lookupRule "contraction-des" = none ∧
    ∀ (oshuffle : List (Option Question) → List (Option Question))
      (shuffle : List String → List String) (pickPractice pickExample pickDefault : Nat),
      generateQuizFromError oshuffle shuffle pickPractice pickExample pickDefault
        (some (analyzeError { issue := d, exampleText := o, suggestion := c })) 3 =
        generateDefaultQuiz pickDefault ∧
      generateDefaultQuiz pickDefault ≠ [] := by
  have hdet : detectErrorType o c d =
      { etype := some "contraction-des", confidence := 0.95, rule := none } := by
    apply detectErrorType_eq_of_contraction _ _ _ ho hc
    · unfold detectContractionErrors
      simp only [contractionPatterns]
      rw [List.find?_cons_of_neg _ (by simp [h1]),
        List.find?_cons_of_neg _ (by simp [h2]),
        List.find?_cons_of_neg _ (by simp [h3]),
        List.find?_cons_of_pos _ (by simp [hadj, hdes])]
      simp [lookupRule_contraction_des]
    · rfl
  refine ⟨hdet, lookupRule_contraction_des, ?_⟩
  intro oshuffle shuffle pickPractice pickExample pickDefault
  have hrule : (analyzeError { issue := d, exampleText := o, suggestion := c }).grammarRule = none := by
    simp [analyzeError, hdet]
  constructor
  · simp only [generateQuizFromError]
    rw [hrule]
  · have := (generateDefaultQuiz_spec pickDefault).1
    exact this

/-- Closed instance of the C10 theorem: a pure "de les"→"des" pair is
typed `contraction-des` with no rule attached. -/
theorem C10_contraction_des_null_rule_witness :
    detectErrorType "je viens de les amis" "je viens des amis" "" =
      { etype := some "contraction-des", confidence := 0.95, rule := none } := by
  exact (C10_contraction_des_null_rule "je viens de les amis" "je viens des amis" ""
    (by decide) (by decide) (by decide) (by decide) (by decide) (by decide) (by decide)).1

/-! ## Quiz option invariants (C6, C8 support) -/

/-- Everything the de-duplication keeps was in the input and was not
already seen. -/
theorem jsDedupAux_mem : ∀ (l seen : List String) (a : String),
    a ∈ jsDedupAux seen l → a ∈ l ∧ a ∉ seen := by
  intro l
  induction l with
  | nil => intro seen a h; simp [jsDedupAux] at h
  | cons x xs ih =>
    intro seen a h
    rw [jsDedupAux] at h
    by_cases hx : seen.contains x
    · rw [if_pos hx] at h
      obtain ⟨h1, h2⟩ := ih seen a h
      exact ⟨List.mem_cons_of_mem _ h1, h2⟩
    · rw [if_neg hx] at h
      rcases List.mem_cons.mp h with rfl | h
      · exact ⟨List.mem_cons_self _ _, fun hc => hx (by simpa using hc)⟩
      · obtain ⟨h1, h2⟩ := ih (x :: seen) a h
        exact ⟨List.mem_cons_of_mem _ h1, fun hc => h2 (List.mem_cons_of_mem _ hc)⟩

/-- Everything in the de-duplicated list was in the original list. -/
theorem jsDedup_subset (l : List String) (a : String) : a ∈ jsDedup l → a ∈ l :=
  fun h => (jsDedupAux_mem l [] a h).1

/-- First-occurrence de-duplication yields a duplicate-free list. -/
theorem jsDedupAux_nodup : ∀ (l seen : List String), (jsDedupAux seen l).Nodup := by
  intro l
  induction l with
  | nil => intro seen; simp [jsDedupAux]
  | cons x xs ih =>
    intro seen
    rw [jsDedupAux]
    by_cases hx : seen.contains x
    · rw [if_pos hx]
      exact ih seen
    · rw [if_neg hx]
      refine List.nodup_cons.mpr ⟨fun hmem => ?_, ih (x :: seen)⟩
      exact (jsDedupAux_mem _ _ _ hmem).2 (List.mem_cons_self _ _)

/-- First-occurrence de-duplication yields a duplicate-free list. -/
theorem jsDedup_nodup (l : List String) : (jsDedup l).Nodup :=
  jsDedupAux_nodup l []

/-- A list whose head is the correct answer and whose tail avoids it
and is duplicate-free contains the answer exactly once and has no
duplicates; both facts survive any permutation (a JS comparator
shuffle). -/
theorem count_one_nodup_perm (shuffle : List String → List String)
    (hs : ∀ l, (shuffle l).Perm l) (ca : String) (rest : List String)
    (hmem : ca ∉ rest) (hnd : rest.Nodup) :
    (shuffle (ca :: rest)).count ca = 1 ∧ (shuffle (ca :: rest)).Nodup := by
  constructor
  · rw [(hs (ca :: rest)).count_eq]
    rw [List.count_cons_self, List.count_eq_zero_of_not_mem hmem]
  · exact ((hs (ca :: rest)).nodup_iff).mpr (List.nodup_cons.mpr ⟨hmem, hnd⟩)

/-- The head of a de-duplicated cons, truncated, still contains the
head exactly once, with no duplicates. -/
theorem dedup_take_spec (ca : String) (extra : List String) (n : Nat) :
    ((jsDedup (ca :: extra)).take (n + 1)).count ca = 1 ∧
    ((jsDedup (ca :: extra)).take (n + 1)).Nodup := by
  have hd : jsDedup (ca :: extra) = ca :: jsDedupAux [ca] extra := rfl
  have htail : ca ∉ (jsDedupAux [ca] extra).take n := by
    intro hmem
    exact (jsDedupAux_mem _ _ _ (List.mem_of_mem_take hmem)).2 (List.mem_cons_self _ _)
  rw [hd, List.take_succ_cons]
  constructor
  · rw [List.count_cons_self, List.count_eq_zero_of_not_mem htail]
  · exact List.nodup_cons.mpr ⟨htail, (jsDedupAux_nodup _ _).sublist (List.take_sublist _ _)⟩

/-- Each catalog rule statement differs from its three distractors, so
the explanation option pool is duplicate-free (checked over the whole
catalog). -/
theorem ruleExplanation_base :
    ∀ rule ∈ frenchGrammarRules, (rule.rule :: generateRuleDistractors rule).Nodup := by
  decide

/-- Explanation questions keep the rule statement exactly once among
duplicate-free options, under any shuffle. -/
theorem generateRuleExplanationQuestion_spec (shuffle : List String → List String)
    (hs : ∀ l, (shuffle l).Perm l) (rule : GrammarRule)
    (hrule : rule ∈ frenchGrammarRules) :
    ∃ opts, (generateRuleExplanationQuestion shuffle rule).options = some opts ∧
      opts.count (generateRuleExplanationQuestion shuffle rule).correctAnswer = 1 ∧
      opts.Nodup := by
  have hbase := ruleExplanation_base rule hrule
  obtain ⟨hmem, hnd⟩ := List.nodup_cons.mp hbase
  exact ⟨shuffle (rule.rule :: generateRuleDistractors rule), rfl,
    (count_one_nodup_perm shuffle hs _ _ hmem hnd).1,
    (count_one_nodup_perm shuffle hs _ _ hmem hnd).2⟩

/-- Application options always hold the correct answer exactly once
with no duplicates: the construction ends in de-duplication, removal of
the correct answer from the distractors, and a shuffle. -/
theorem generateApplicationOptions_spec (shuffle : List String → List String)
    (hs : ∀ l, (shuffle l).Perm l) (ca : String) (rule : GrammarRule) :
    (generateApplicationOptions shuffle ca rule).count ca = 1 ∧
    (generateApplicationOptions shuffle ca rule).Nodup := by
  have haux : ∀ L : List String,
      (shuffle (ca :: ((jsDedup L).filter (fun o => o ≠ ca)).take 3)).count ca = 1 ∧
      (shuffle (ca :: ((jsDedup L).filter (fun o => o ≠ ca)).take 3)).Nodup := by
    intro L
    apply count_one_nodup_perm shuffle hs
    · intro hmem
      have := List.of_mem_filter (List.mem_of_mem_take hmem)
      simp at this
    · exact ((jsDedup_nodup L).filter _).sublist (List.take_sublist _ _)
  exact haux _

/-- Fill-in-the-blank options always hold the blanked word exactly once
with no duplicates: the word is placed first and the list
de-duplicated. -/
theorem generateBlankOptions_spec (ca : String) (rule : GrammarRule) :
    (generateBlankOptions ca rule).count ca = 1 ∧
    (generateBlankOptions ca rule).Nodup := by
  simp only [generateBlankOptions, List.cons_append, List.nil_append]
  split_ifs <;> exact dedup_take_spec ca _ 3

/-- Application questions that carry options satisfy the option
invariant. -/
theorem generateApplicationQuestion_spec (shuffle : List String → List String)
    (hs : ∀ l, (shuffle l).Perm l) (pickPractice pickExample : Nat)
    (rule : GrammarRule) (q : Question) (opts : List String)
    (hq : generateApplicationQuestion shuffle pickPractice pickExample rule = some q)
    (ho : q.options = some opts) :
    opts.count q.correctAnswer = 1 ∧ opts.Nodup := by
  unfold generateApplicationQuestion at hq
  split at hq
  · exact absurd hq (by simp)
  · split_ifs at hq
    · injection hq with hq
      subst hq
      simp only [Option.some.injEq] at ho
      subst ho
      exact generateApplicationOptions_spec shuffle hs _ rule
    · injection hq with hq
      subst hq
      exact absurd ho (by simp)

/-- Sentence-construction questions that carry options satisfy the
option invariant. -/
theorem generateSentenceConstructionQuestion_spec (pickExample : Nat)
    (rule : GrammarRule) (q : Question) (opts : List String)
    (hq : generateSentenceConstructionQuestion pickExample rule = some q)
    (ho : q.options = some opts) :
    opts.count q.correctAnswer = 1 ∧ opts.Nodup := by
  unfold generateSentenceConstructionQuestion at hq
  split at hq
  · exact absurd hq (by simp)
  · injection hq with hq
    subst hq
    simp only [Option.some.injEq] at ho
    subst ho
    exact generateBlankOptions_spec _ rule

/-- Error-identification questions satisfy the option invariant
whenever the presented incorrect sentence is not among the sampled
correct sentences and those are duplicate-free. -/
theorem generateErrorIdentificationQuestion_spec (shuffle : List String → List String)
    (hs : ∀ l, (shuffle l).Perm l) (error : ErrorInfo) (rule : GrammarRule) (q : Question)
    (hq : generateErrorIdentificationQuestion shuffle error rule = some q)
    (hncoll : eiIncorrectSentence error rule ∉ eiCorrectSentences rule)
    (hnd : (eiCorrectSentences rule).Nodup) :
    ∃ opts, q.options = some opts ∧ opts.count q.correctAnswer = 1 ∧ opts.Nodup := by
  unfold generateErrorIdentificationQuestion at hq
  split_ifs at hq
  injection hq with hq
  subst hq
  refine ⟨shuffle (eiCorrectSentences rule ++ [eiIncorrectSentence error rule]), rfl, ?_, ?_⟩
  · dsimp only
    rw [(hs _).count_eq, List.count_append, List.count_eq_zero_of_not_mem hncoll]
    simp
  · refine ((hs _).nodup_iff).mpr (List.Nodup.append hnd (List.nodup_singleton _) ?_)
    intro a ha hb
    rw [List.mem_singleton] at hb
    subst hb
    exact hncoll ha

/-- C6 (amended): under any shuffle, rule-explanation items (for
catalog rules), application items, sentence-construction items and
default-quiz items always carry their correct answer exactly once among
duplicate-free options; error-identification items do so provided the
presented incorrect sentence is not among the sampled correct sentences
(a proviso that holds automatically whenever the catalog supplies an
incorrect example, as the last conjunct checks over the catalog, but
that the error's own sentence can violate). -/
theorem C6_options_invariant (shuffle : List String → List String)
    (hs : ∀ l, (shuffle l).Perm l) :
    (∀ rule ∈ frenchGrammarRules,
      ∃ opts, (generateRuleExplanationQuestion shuffle rule).options = some opts ∧
        opts.count (generateRuleExplanationQuestion shuffle rule).correctAnswer = 1 ∧
        opts.Nodup) ∧
    (∀ (pickPractice pickExample : Nat) (rule : GrammarRule) (q : Question) (opts : List String),
      generateApplicationQuestion shuffle pickPractice pickExample rule = some q →
      q.options = some opts → opts.count q.correctAnswer = 1 ∧ opts.Nodup) ∧
    (∀ (pickExample : Nat) (rule : GrammarRule) (q : Question) (opts : List String),
      generateSentenceConstructionQuestion pickExample rule = some q →
      q.options = some opts → opts.count q.correctAnswer = 1 ∧ opts.Nodup) ∧
    (∀ (error : ErrorInfo) (rule : GrammarRule) (q : Question),
      generateErrorIdentificationQuestion shuffle error rule = some q →
      eiIncorrectSentence error rule ∉ eiCorrectSentences rule →
      (eiCorrectSentences rule).Nodup →
      ∃ opts, q.options = some opts ∧ opts.count q.correctAnswer = 1 ∧ opts.Nodup) ∧
    (frenchGrammarRules.all (fun rule =>
      (rule.examples.find? (fun ex => optTruthy ex.incorrect)).elim true
        (fun ex => !((eiCorrectSentences rule).contains (ex.incorrect.getD "undefined")) &&
          decide (eiCorrectSentences rule).Nodup)) = true) ∧
    (∀ pickDefault : Nat, ∀ q ∈ generateDefaultQuiz pickDefault,
      ∃ opts, q.options = some opts ∧ opts.count q.correctAnswer = 1 ∧ opts.Nodup) := by
  refine ⟨?_, ?_, ?_, ?_, by decide, ?_⟩
  · intro rule hrule
    exact generateRuleExplanationQuestion_spec shuffle hs rule hrule
  · intro p1 p2 rule q opts hq ho
    exact generateApplicationQuestion_spec shuffle hs p1 p2 rule q opts hq ho
  · intro p rule q opts hq ho
    exact generateSentenceConstructionQuestion_spec p rule q opts hq ho
  · intro error rule q hq hncoll hnd
    exact generateErrorIdentificationQuestion_spec shuffle hs error rule q hq hncoll hnd
  · intro pick q hq
    exact (generateDefaultQuiz_spec pick).2 q hq

/-- Classifying the pair ("le chat", "le chat.") with the description
"gender": no structural detector fires, the gender detector matches the
description keyword at confidence 0.5, and the later preposition
keyword match (the substring "de" of "gender") cannot beat it. -/
theorem detectErrorType_gender_example :
    detectErrorType "le chat" "le chat." "gender" =
      { etype := some "gender-article-masculine", confidence := 0.5,
        rule := some ruleGenderMasculine } := by
  have h1 : detectContractionErrors "le chat" "le chat." "gender" = noDetect := by rfl
  have h2 : detectGenderArticleErrors "le chat" "le chat." "gender" =
      { etype := some "gender-article-masculine", confidence := 0.5,
        rule := some ruleGenderMasculine } := by rfl
  have h3 : detectVerbConjugationErrors "le chat" "le chat." "gender" = noDetect := by rfl
  have h4 : detectAdjectiveAgreementErrors "le chat" "le chat." "gender" = noDetect := by rfl
  have h5 : detectPrepositionErrors "le chat" "le chat." "gender" =
      { etype := some "prepositions-place", confidence := 0.5,
        rule := some rulePrepositionsPlace } := by rfl
  have h6 : detectNegationErrors "le chat" "le chat." "gender" = noDetect := by rfl
  have h7 : detectPartitiveArticleErrors "le chat" "le chat." "gender" = noDetect := by rfl
  have h8 : detectPronounErrors "le chat" "le chat." "gender" = noDetect := by rfl
  have hA : strTrim (strToLower "le chat") = "le chat" := by decide
  have hB : strTrim (strToLower "le chat.") = "le chat." := by decide
  have hC : strToLower "gender" = "gender" := by decide
  have bKeep0 : better unknownDetect noDetect = unknownDetect := by
    unfold better
    rw [if_neg (by norm_num [noDetect, unknownDetect])]
  have bTake : better unknownDetect
      { etype := some "gender-article-masculine", confidence := 0.5,
        rule := some ruleGenderMasculine } =
      { etype := some "gender-article-masculine", confidence := 0.5,
        rule := some ruleGenderMasculine } := by
    unfold better
    rw [if_pos (by norm_num [unknownDetect])]
  have bKeep : ∀ s : DetectResult, s.confidence ≤ 0.5 →
      better { etype := some "gender-article-masculine", confidence := 0.5,
               rule := some ruleGenderMasculine } s =
        { etype := some "gender-article-masculine", confidence := 0.5,
          rule := some ruleGenderMasculine } := by
    intro s hsle
    unfold better
    rw [if_neg (not_lt.mpr hsle)]
  simp only [detectErrorType]
  rw [if_neg (by decide)]
  rw [hA, hB, hC]
  simp only [detectors, List.foldl]
  rw [h1, h2, h3, h4, h5, h6, h7, h8, bKeep0, bTake,
    bKeep _ (by norm_num [noDetect]), bKeep _ (by norm_num [noDetect]),
    bKeep _ (by norm_num), bKeep _ (by norm_num [noDetect]),
    bKeep _ (by norm_num [noDetect]), bKeep _ (by norm_num [noDetect])]

/-- C6 fails as stated: the pair ("le chat", "le chat.") described as a
"gender" issue classifies to the masculine-article rule, whose catalog
examples have no incorrect sentence; the error-identification generator
then presents the error's own sentence "le chat" as the incorrect
option — but "le chat" is also the rule's first correct example, so the
item's options (here under the identity shuffle) contain its correct
answer twice. -/
theorem C6_counterexample :
    analyzeError { issue := "gender", exampleText := "le chat", suggestion := "le chat." } =
      { exampleText := "le chat", suggestion := "le chat.",
        grammarRule := some ruleGenderMasculine } ∧
    generateProgressiveQuiz id id 0 0 0
      (some { exampleText := "le chat", suggestion := "le chat.",
              grammarRule := some ruleGenderMasculine }) 1 =
      [{ qtype := "error_identification",
         options := some ["le chat", "le livre", "le chat"],
         correctAnswer := "le chat", points := 10 }] ∧
    (["le chat", "le livre", "le chat"].count "le chat" = 2 ∧ 2 ≠ 1) ∧
    ¬ (["le chat", "le livre", "le chat"] : List String).Nodup := by
  refine ⟨?_, by decide, by decide, by decide⟩
  unfold analyzeError
  rw [detectErrorType_gender_example]

/-- Closed instance of the amended C6 theorem: the application options
for the contraction-au practice answer "au restaurant" under the
identity shuffle contain it exactly once, without duplicates. -/
theorem C6_options_invariant_witness :
    (["au restaurant", "à le restaurant", "à la restaurant", "aux restaurant"].count
      "au restaurant" = 1) ∧
    (["au restaurant", "à le restaurant", "à la restaurant", "aux restaurant"] :
      List String).Nodup := by
  have h := (C6_options_invariant id (fun l => List.Perm.refl l)).2.1 0 0 ruleContractionAu
    { qtype := "multiple_choice",
      options := some ["au restaurant", "à le restaurant", "à la restaurant", "aux restaurant"],
      correctAnswer := "au restaurant", points := 15 }
    ["au restaurant", "à le restaurant", "à la restaurant", "aux restaurant"]
    (by decide) rfl
  exact h
